import Mathlib

/-!
A shallow embedding, in Lean 4, of the multi-agent resume scoring engine of the
ATS_Resume repository (backend/app/services/: scoring_coordinator.py and the five
agents under agents/).  Python floats are modelled as rationals, Python dicts as
association lists, Python sets as Finsets, exceptions as Except/Option, and the
regular expressions of the source as patterns for a small backtracking matcher
defined below.  Each definition is translated from the corresponding Python
function; deviations forced by the modelling (for example, the square root used
by numpy norms, or the current calendar year) are kept abstract as parameters
and are noted at the definition they concern.
-/

set_option maxRecDepth 10000
set_option maxHeartbeats 1000000
set_option linter.unnecessarySeqFocus false

namespace ATS

/-! Python string helpers.

`pyLower` is str.lower, `pyStrip` is str.strip() (whitespace on both ends),
`pyJoin sep` is sep.join, `pySplitWs` is str.split() with no argument
(split on whitespace runs, no empty items), `sLen` is len() (code points). -/

/-! Python's builtin min, max and abs, written with `if` so that concrete
values reduce inside the kernel; each agrees with the Mathlib order operation
(see the bridging lemmas further below). -/

def pyMinQ (a b : ℚ) : ℚ := if a ≤ b then a else b

def pyMaxQ (a b : ℚ) : ℚ := if a ≤ b then b else a

def pyMaxN (a b : Nat) : Nat := if a ≤ b then b else a

def pyMinN (a b : Nat) : Nat := if a ≤ b then a else b

def pyMaxI (a b : Int) : Int := if a ≤ b then b else a

def pyAbsQ (q : ℚ) : ℚ := if q < 0 then -q else q

def pyLower (s : String) : String := String.mk (s.data.map Char.toLower)

def pyStrip (s : String) : String :=
  String.mk (((s.data.dropWhile Char.isWhitespace).reverse.dropWhile Char.isWhitespace).reverse)

def pyJoin (sep : String) : List String → String
  | [] => ""
  | h :: t => t.foldl (fun acc s => acc ++ sep ++ s) h

def sLen (s : String) : Nat := s.data.length

def pySplitWsAux : List Char → List Char → List String
  | [], cur => if cur.isEmpty then [] else [String.mk cur.reverse]
  | c :: rest, cur =>
    if c.isWhitespace then
      if cur.isEmpty then pySplitWsAux rest [] else String.mk cur.reverse :: pySplitWsAux rest []
    else pySplitWsAux rest (c :: cur)

def pySplitWs (s : String) : List String := pySplitWsAux s.data []

/-- Substring containment: models re.search of a pattern that is a plain
literal (all such patterns in the source are searched case-insensitively
against text that was already lowercased, so literal containment is exact). -/
def hasSubAux (n : List Char) : List Char → Bool
  | [] => n.isEmpty
  | c :: rest => n.isPrefixOf (c :: rest) || hasSubAux n rest

def containsSub (needle hay : String) : Bool := hasSubAux needle.data hay.data

/-! The data model: candidate profile and job description records, as the
dictionaries the coordinator receives (models/resume.py, models/job.py fields
read by the agents).  The declared candidate skill list is part of the record
but is never read by any agent. -/

structure Resume where
  title : String
  text_content : String
  skills : List String
deriving DecidableEq

structure Job where
  title : String
  company : String
  description : String
  requirements : List String
  skills : List String
deriving DecidableEq

/-- AgentType enum of base_agent.py. -/
inductive AgentType where
  | keyword_matching
  | skill_matching
  | experience_relevance
  | education_alignment
  | semantic_similarity
deriving DecidableEq

/-- Evidence values: the `Dict[str, Any]` payload of an AgentResult.  Python
sets are modelled as Finsets (their list() order is unspecified). -/
inductive EvVal where
  | str (s : String)
  | num (q : ℚ)
  | int (n : Int)
  | bool (b : Bool)
  | strList (l : List String)
  | strSet (s : Finset String)
  | dict (d : List (String × EvVal))

def Evidence : Type := List (String × EvVal)

/-- evidence.get(key, []) specialised to the matched/missing skill lists the
coordinator reads from the skill agent's evidence. -/
def getStrSet (e : Evidence) (k : String) : Finset String :=
  match List.lookup k e with
  | some (.strSet s) => s
  | _ => ∅

/-- AgentResult dataclass of base_agent.py. -/
structure AgentResult where
  agent_type : AgentType
  score : ℚ
  percentage : ℚ
  weight : ℚ
  evidence : Evidence
  confidence : ℚ
  error : Option String

/-- BaseAgent._create_result: clamps the score into [0,1]; the percentage is
computed from the unclamped score and the confidence is not clamped, exactly
as in the source. -/
def createResult (t : AgentType) (weight : ℚ) (score : ℚ) (evidence : Evidence)
    (confidence : ℚ) (error : Option String) : AgentResult :=
  { agent_type := t
    score := pyMaxQ 0 (pyMinQ 1 score)
    percentage := score * 100
    weight := weight
    evidence := evidence
    confidence := confidence
    error := error }

/-- BaseAgent._extract_text_content. -/
def extractTextContent (r : Resume) : String := pyStrip (r.title ++ " " ++ r.text_content)

/-- BaseAgent._extract_job_content. -/
def extractJobContent (j : Job) : String :=
  pyStrip (j.title ++ " " ++ j.company ++ " " ++ j.description ++ " "
    ++ pyJoin " " j.requirements ++ " " ++ pyJoin " " j.skills)

/-! A small regular-expression engine.  Every regex in the source applies its
quantifiers (* + ? {4} and their lazy forms) to single-character classes only,
so patterns are sequences of literals, quantified classes, options,
alternations, one or two capture groups, word boundaries and end anchors.
Matching is leftmost, with greedy/lazy preference order as in Python re;
a fuel argument makes the backtracking search structurally recursive. -/

inductive CCls where
  | digit
  | space
  | colonSpace
  | notDotNl
  | alphaSpace
  | anyNotNl
  | dashC
deriving DecidableEq

def CCls.mem : CCls → Char → Bool
  | .digit, c => c.isDigit
  | .space, c => c.isWhitespace
  | .colonSpace, c => c = ':' || c.isWhitespace
  | .notDotNl, c => !(c = '.' || c = '\n')
  | .alphaSpace, c => c.isAlpha || c.isWhitespace
  | .anyNotNl, c => !(c = '\n')
  | .dashC, c => c = '-' || c = '–'

inductive RE where
  | lit (s : String)
  | cls (c : CCls) (lo : Nat) (hi : Option Nat) (lz : Bool)
  | opt (r : RE)
  | alt (rs : List RE)
  | seqn (rs : List RE)
  | grp (idx : Nat) (r : RE)
  | wordB
  | eos

/-- Both capture group spans (at most two groups occur in any source pattern). -/
def Caps : Type := Option (Nat × Nat) × Option (Nat × Nat)

def setCap (idx : Nat) (a b : Nat) (cp : Caps) : Caps :=
  if idx = 1 then (some (a, b), cp.2) else (cp.1, some (a, b))

def nthChar (t : List Char) (i : Nat) : Option Char := (t.drop i).head?

def wordChar (c : Char) : Bool := c.isAlphanum || c = '_'

def atWordB (t : List Char) (i : Nat) : Bool :=
  (if i = 0 then false else (nthChar t (i - 1)).rec false wordChar)
    != (nthChar t i).rec false wordChar

def isLitAt (t : List Char) (s : List Char) (i : Nat) : Bool := s.isPrefixOf (t.drop i)

def runLen (c : CCls) : List Char → Nat
  | [] => 0
  | ch :: rest => if c.mem ch then runLen c rest + 1 else 0

def firstSome {α : Type} : List (Option α) → Option α
  | [] => none
  | some a :: _ => some a
  | none :: rest => firstSome rest

def reM (t : List Char) : Nat → List RE → Nat → Caps →
    (Nat → Caps → Option (Nat × Caps)) → Option (Nat × Caps)
  | 0, _, _, _, _ => none
  | _ + 1, [], i, cp, k => k i cp
  | fuel + 1, r :: rs, i, cp, k =>
    match r with
    | .lit s => if isLitAt t s.data i then reM t fuel rs (i + s.data.length) cp k else none
    | .opt r1 => firstSome [reM t fuel (r1 :: rs) i cp k, reM t fuel rs i cp k]
    | .alt xs => firstSome (xs.map (fun x => reM t fuel (x :: rs) i cp k))
    | .seqn xs => reM t fuel (xs ++ rs) i cp k
    | .grp idx r1 =>
      reM t fuel [r1] i cp (fun j cp1 => reM t fuel rs j (setCap idx i j cp1) k)
    | .wordB => if atWordB t i then reM t fuel rs i cp k else none
    | .eos => if i = t.length then reM t fuel rs i cp k else none
    | .cls c lo hi lz =>
      let m := runLen c (t.drop i)
      let hiv := match hi with | none => m | some h => min h m
      if lo > hiv then none
      else
        let counts := if lz then List.range' lo (hiv - lo + 1)
                      else (List.range' lo (hiv - lo + 1)).reverse
        firstSome (counts.map (fun n => reM t fuel rs (i + n) cp k))

def reFuel : Nat := 400

def reMatchAt (r : RE) (t : List Char) (i : Nat) : Option (Nat × Caps) :=
  reM t reFuel [r] i (none, none) (fun j cp => some (j, cp))

def reScan (r : RE) (t : List Char) : Nat → Nat → Option (Nat × Nat × Caps)
  | _, 0 => none
  | pos, f + 1 =>
    match reMatchAt r t pos with
    | some (j, cp) => some (pos, j, cp)
    | none => reScan r t (pos + 1) f

def reFindAux (r : RE) (t : List Char) : Nat → Nat → List (Nat × Nat × Caps)
  | _, 0 => []
  | pos, f + 1 =>
    match reScan r t pos (t.length + 1 - pos) with
    | none => []
    | some (ms, me, cp) => (ms, me, cp) :: reFindAux r t (if ms < me then me else me + 1) f

def grpStr (t : List Char) (sp : Option (Nat × Nat)) : String :=
  match sp with
  | some (a, b) => String.mk ((t.drop a).take (b - a))
  | none => ""

/-- re.findall restricted to group 1 (patterns with a single group). -/
def reFindAllG1 (r : RE) (s : String) : List String :=
  (reFindAux r s.data 0 (s.data.length + 1)).map (fun m => grpStr s.data m.2.2.1)

/-- re.findall for patterns with two groups (tuples of group strings). -/
def reFindAllG12 (r : RE) (s : String) : List (String × String) :=
  (reFindAux r s.data 0 (s.data.length + 1)).map
    (fun m => (grpStr s.data m.2.2.1, grpStr s.data m.2.2.2))

/-- re.search, returning group 1 of the leftmost match. -/
def reSearchG1 (r : RE) (s : String) : Option String :=
  (reScan r s.data 0 (s.data.length + 1)).map (fun m => grpStr s.data m.2.2.1)

/-- Boolean re.search. -/
def reTest (r : RE) (s : String) : Bool :=
  (reScan r s.data 0 (s.data.length + 1)).isSome

/-! Common pattern pieces (all source regexes are compiled with re.IGNORECASE
and run against lowercased text, so literals are written lowercase). -/

def sp0 : RE := .cls .space 0 none false
def sp1 : RE := .cls .space 1 none false
def colsp0 : RE := .cls .colonSpace 0 none false
def notDotNl0 : RE := .cls .notDotNl 0 none false
def capLazyNotDotNl : RE := .grp 1 (.cls .notDotNl 1 none true)
def endNlDotEos : RE := .alt [.lit "\n", .lit ".", .eos]
def endSpCommaDotEos : RE := .alt [.cls .space 1 (some 1) false, .lit ",", .lit ".", .eos]

/-! SkillMatchingAgent (skill_agent.py). -/

/-- The skills-section patterns of SkillMatchingAgent._extract_skills
(r'skills?[:\s]*([^.\n]+?)(?:\n|\.|$)' and the nine variants). -/
def skillSectionPats : List RE :=
  [ .seqn [.lit "skill", .opt (.lit "s"), colsp0, capLazyNotDotNl, endNlDotEos],
    .seqn [.lit "technical", sp1, .lit "skill", .opt (.lit "s"), colsp0, capLazyNotDotNl, endNlDotEos],
    .seqn [.lit "technologie", .opt (.lit "s"), colsp0, capLazyNotDotNl, endNlDotEos],
    .seqn [.lit "programming", sp1, .lit "language", .opt (.lit "s"), colsp0, capLazyNotDotNl, endNlDotEos],
    .seqn [.lit "framework", .opt (.lit "s"), colsp0, capLazyNotDotNl, endNlDotEos],
    .seqn [.lit "tool", .opt (.lit "s"), colsp0, capLazyNotDotNl, endNlDotEos],
    .seqn [.lit "expertise", sp1, .lit "in", colsp0, capLazyNotDotNl, endNlDotEos],
    .seqn [.lit "proficient", sp1, .lit "in", colsp0, capLazyNotDotNl, endNlDotEos],
    .seqn [.lit "experience", sp1, .lit "with", colsp0, capLazyNotDotNl, endNlDotEos],
    .seqn [.lit "familiar", sp1, .lit "with", colsp0, capLazyNotDotNl, endNlDotEos] ]

/-- The experience-based extraction patterns of _extract_skills. -/
def expSkillPats : List RE :=
  [ .seqn [.alt [.lit "developed", .lit "built", .lit "created", .lit "implemented",
                 .lit "designed", .lit "architected", .lit "programmed", .lit "coded"],
           sp1, .opt (.seqn [.lit "using", sp1]), capLazyNotDotNl, endSpCommaDotEos],
    .seqn [.alt [.seqn [.lit "worked", sp1, .lit "with"], .lit "used", .lit "utilized", .lit "leveraged"],
           sp1, capLazyNotDotNl, endSpCommaDotEos],
    .seqn [.alt [.seqn [.lit "experience", sp1, .lit "in"], .seqn [.lit "expertise", sp1, .lit "in"],
                 .seqn [.lit "proficient", sp1, .lit "in"]],
           sp1, capLazyNotDotNl, endSpCommaDotEos],
    .seqn [.alt [.seqn [.lit "technologie", .opt (.lit "s")], .seqn [.lit "tool", .opt (.lit "s")],
                 .seqn [.lit "framework", .opt (.lit "s")], .seqn [.lit "language", .opt (.lit "s")]],
           colsp0, capLazyNotDotNl, endNlDotEos] ]

/-- The technical_skills set of _is_skill_in_context. -/
def technicalSkills : List String :=
  ["javascript", "typescript", "python", "java", "react", "angular", "vue",
   "nodejs", "express", "django", "flask", "spring", "mysql", "postgresql",
   "mongodb", "redis", "aws", "azure", "gcp", "docker", "kubernetes",
   "git", "jenkins", "terraform", "ansible", "agile", "scrum", "devops",
   "rest", "graphql", "microservices", "tdd", "bdd", "ci/cd", "cicd"]

/-- Negative-context patterns of _is_technical_skill_in_context (the skill
string is spliced in literally; all modelled skills re.escape to themselves). -/
def negTechPats (s : String) : List RE :=
  [ .seqn [.lit "no", sp1, .lit "experience", sp1, .lit "with", sp1, .lit s, .wordB],
    .seqn [.lit "not", sp1, .lit "familiar", sp1, .lit "with", sp1, .lit s, .wordB],
    .seqn [.lit "limited", sp1, .lit "knowledge", sp1, .lit "of", sp1, .lit s, .wordB],
    .seqn [.lit "basic", sp1, .lit "understanding", sp1, .lit "of", sp1, .lit s, .wordB],
    .seqn [.lit "never", sp1, .lit "used", sp1, .lit s, .wordB],
    .seqn [.lit "no", sp1, .lit "exposure", sp1, .lit "to", sp1, .lit s, .wordB] ]

/-- Strong positive-context patterns of _is_technical_skill_in_context. -/
def posTechPats (s : String) : List RE :=
  [ .seqn [.alt [.lit "expert", .lit "proficient", .lit "skilled", .lit "experienced"],
           sp1, .opt (.seqn [.lit "in", sp1]), .lit s, .wordB],
    .seqn [.alt [.lit "strong", .lit "extensive", .lit "deep"], sp1,
           .alt [.lit "knowledge", .lit "experience"], sp1, .opt (.seqn [.lit "in", sp1]), .lit s, .wordB],
    .seqn [.alt [.lit "developed", .lit "built", .lit "created", .lit "implemented",
                 .lit "programmed", .lit "coded"], sp1, .opt (.seqn [.lit "using", sp1]), .lit s, .wordB],
    .seqn [.alt [.seqn [.lit "worked", sp1, .lit "with"], .lit "used", .lit "utilized", .lit "leveraged"],
           sp1, .lit s, .wordB],
    .seqn [.alt [.seqn [.lit "programming", sp1, .lit "language", .opt (.lit "s")],
                 .seqn [.lit "framework", .opt (.lit "s")],
                 .seqn [.lit "technologie", .opt (.lit "s")],
                 .seqn [.lit "tool", .opt (.lit "s")]], colsp0, notDotNl0, .lit s, .wordB],
    .seqn [.opt (.seqn [.lit "technical", sp1]), .lit "skill", .opt (.lit "s"),
           colsp0, notDotNl0, .lit s, .wordB] ]

/-- Technical-section patterns of _is_technical_skill_in_context. -/
def techSectionPats (s : String) : List RE :=
  [ .seqn [.opt (.seqn [.lit "technical", sp1]), .lit "skill", .opt (.lit "s"),
           colsp0, notDotNl0, .lit s, .wordB],
    .seqn [.lit "programming", sp1, .lit "language", .opt (.lit "s"), colsp0, notDotNl0, .lit s, .wordB],
    .seqn [.lit "framework", .opt (.lit "s"), colsp0, notDotNl0, .lit s, .wordB],
    .seqn [.lit "technologie", .opt (.lit "s"), colsp0, notDotNl0, .lit s, .wordB],
    .seqn [.lit "tool", .opt (.lit "s"), colsp0, notDotNl0, .lit s, .wordB] ]

/-- Negative-context patterns of _is_general_skill_in_context. -/
def negGenPats (s : String) : List RE :=
  [ .seqn [.lit "no", sp1, .lit "experience", sp1, .lit "with", sp1, .lit s, .wordB],
    .seqn [.lit "not", sp1, .lit "familiar", sp1, .lit "with", sp1, .lit s, .wordB],
    .seqn [.lit "limited", sp1, .lit "knowledge", sp1, .lit "of", sp1, .lit s, .wordB] ]

/-- Positive-context patterns of _is_general_skill_in_context. -/
def posGenPats (s : String) : List RE :=
  [ .seqn [.alt [.lit "expert", .lit "proficient", .lit "skilled", .lit "experienced"],
           sp1, .opt (.seqn [.lit "in", sp1]), .lit s, .wordB],
    .seqn [.alt [.lit "strong", .lit "extensive", .lit "deep"], sp1,
           .alt [.lit "knowledge", .lit "experience"], sp1, .opt (.seqn [.lit "in", sp1]), .lit s, .wordB],
    .seqn [.alt [.lit "developed", .lit "built", .lit "created", .lit "implemented"],
           sp1, .opt (.seqn [.lit "using", sp1]), .lit s, .wordB],
    .seqn [.alt [.seqn [.lit "worked", sp1, .lit "with"], .lit "used", .lit "utilized"],
           sp1, .lit s, .wordB],
    .seqn [.lit "skill", .opt (.lit "s"), colsp0, notDotNl0, .lit s, .wordB] ]

/-- The skills-section fallback pattern of _is_general_skill_in_context. -/
def genSectionPat (s : String) : RE :=
  .seqn [.lit "skill", .opt (.lit "s"), colsp0, notDotNl0, .lit s, .wordB]

/-- SkillMatchingAgent._is_technical_skill_in_context. -/
def isTechnicalSkillInContext (text skill : String) : Bool :=
  if (negTechPats skill).any (fun p => reTest p text) then false
  else if (posTechPats skill).any (fun p => reTest p text) then true
  else if (techSectionPats skill).any (fun p => reTest p text) then true
  else false

/-- SkillMatchingAgent._is_general_skill_in_context. -/
def isGeneralSkillInContext (text skill : String) : Bool :=
  if (negGenPats skill).any (fun p => reTest p text) then false
  else if (posGenPats skill).any (fun p => reTest p text) then true
  else if reTest (genSectionPat skill) text then true
  else false

/-- SkillMatchingAgent._is_skill_in_context. -/
def isSkillInContext (text skill : String) : Bool :=
  if skill ∈ technicalSkills then isTechnicalSkillInContext text skill
  else isGeneralSkillInContext text skill

/-- A skill taxonomy (category name → canonical skill → variant list), the
schema of the Taxonomy Data Asset. -/
def Taxonomy : Type := List (String × List (String × List String))

/-- Python-dict insertion: overwriting an existing key keeps its position,
a new key is appended. -/
def dictInsert (m : List (String × String)) (k v : String) : List (String × String) :=
  if m.any (fun p => p.1 = k) then m.map (fun p => if p.1 = k then (k, v) else p)
  else m ++ [(k, v)]

/-- SkillMatchingAgent._build_skill_mappings (the isinstance guards always hold
for the typed taxonomy). -/
def buildSkillMappings (tax : Taxonomy) : List (String × String) :=
  tax.foldl (fun m cat =>
    cat.2.foldl (fun m sk =>
      let m := dictInsert m (pyLower sk.1) (pyLower sk.1)
      sk.2.foldl (fun m v => dictInsert m (pyLower v) (pyLower sk.1)) m) m) []

/-- SkillMatchingAgent._load_skill_taxonomy: a failed load of the JSON asset is
caught and yields the empty taxonomy. -/
def loadedTaxonomy : Except String Taxonomy → Taxonomy
  | .ok t => t
  | .error _ => []

/-- Modelled from the spec: the skill_taxonomy.json data asset is not under
src/; section 6 of the spec fixes only its schema (category → canonical skill
→ case-insensitive variant list) and the Scenario A test requires "python" and
"aws" (and, for the candidate side, "react") to be canonical skills.  This
minimal concrete instance records exactly that. -/
def specTaxonomy : Taxonomy :=
  [("programming_languages", [("python", [])]),
   ("frontend", [("react", [])]),
   ("cloud", [("aws", [])])]

def specSkillMappings : List (String × String) := buildSkillMappings specTaxonomy

/-- SkillMatchingAgent._normalize_skill. -/
def normalizeSkill (mappings : List (String × String)) (skill : String) : Option String :=
  List.lookup (pyStrip (pyLower skill)) mappings

def isSepChar (c : Char) : Bool :=
  c = ',' || c = ';' || c = '|' || c = '•' || c = '\n' || c = '\t'

/-- re.split(r'[,;|•\n\t]+', ·): splitting at every separator; a run of
separators yields empty chunks that the length filter below discards, so this
agrees with the + quantifier of the source pattern on everything the caller
keeps. -/
def splitSeps : List Char → List (List Char)
  | [] => [[]]
  | c :: rest =>
    if isSepChar c then [] :: splitSeps rest
    else match splitSeps rest with
      | [] => [[c]]
      | h :: t => (c :: h) :: t

/-- SkillMatchingAgent._extract_skills_from_section (the Python set it builds
is returned here as the list of its members in extraction order; only its
membership is ever used). -/
def extractSkillsFromSection (mappings : List (String × String)) (sectionText : String) : List String :=
  let cands := (splitSeps (pyLower sectionText).data).map (fun l => pyStrip (String.mk l))
  (cands.filter (fun c => !(sLen c < 2 || sLen c > 50))).filterMap (normalizeSkill mappings)

/-- Python set.add on a set modelled as a duplicate-free list in insertion
order (list(found_skills) has unspecified order in Python, and every consumer
of _extract_skills is order-insensitive). -/
def setAdd (l : List String) (s : String) : List String :=
  if s ∈ l then l else l ++ [s]

/-- SkillMatchingAgent._extract_skills: section-pattern harvesting, then
experience-pattern harvesting, then context-validated direct mentions of every
taxonomy variation, accumulated into the found_skills set. -/
def extractSkills (mappings : List (String × String)) (text : String) : List String :=
  let tl := pyLower text
  let s1 := (skillSectionPats.flatMap (fun p =>
    (reFindAllG1 p tl).flatMap (extractSkillsFromSection mappings))).foldl setAdd []
  let s2 := (expSkillPats.flatMap (fun p =>
    (reFindAllG1 p tl).flatMap (extractSkillsFromSection mappings))).foldl setAdd s1
  ((mappings.filter (fun vc => isSkillInContext tl vc.1)).map (fun vc => vc.2)).foldl setAdd s2

/-- SkillMatchingAgent.analyze.  The internal try/except of the source cannot
fire in this total model; its matched/missing Python sets are Finsets. -/
def skillAnalyze (mappings : List (String × String)) (weight : ℚ)
    (resume : Resume) (job : Job) : AgentResult :=
  let resume_text := extractTextContent resume
  let job_skills := job.skills.map pyLower
  let resume_skills := extractSkills mappings resume_text
  if job_skills = [] then
    createResult .skill_matching weight 0
      [("resume_skills", .strList resume_skills), ("job_skills", .strList []),
       ("matched_skills", .strSet ∅), ("missing_skills", .strSet ∅),
       ("total_job_skills", .int 0), ("total_resume_skills", .int resume_skills.length)]
      0 (some "No skills specified in job description")
  else
    let resume_normalized := resume_skills.filterMap (normalizeSkill mappings)
    let job_normalized := job_skills.filterMap (normalizeSkill mappings)
    if job_normalized = [] then
      createResult .skill_matching weight 0
        [("resume_skills", .strList resume_skills), ("job_skills", .strList job_skills),
         ("matched_skills", .strSet ∅), ("missing_skills", .strSet ∅),
         ("total_job_skills", .int 0), ("total_resume_skills", .int resume_skills.length)]
        0 (some "No valid skills found in job description after normalization")
    else
      let matched := resume_normalized.toFinset ∩ job_normalized.toFinset
      let missing := job_normalized.toFinset \ resume_normalized.toFinset
      let alignmentFrac : ℚ := (matched.card : ℚ) / (job_normalized.length : ℚ)
      let score := pyMinQ 1 alignmentFrac
      let skillCoverage : ℚ := (matched.card : ℚ) / (pyMaxN job_normalized.length 1 : ℚ)
      let confidence := pyMinQ 1 (skillCoverage + 0.1)
      createResult .skill_matching weight score
        [("resume_skills", .strList resume_skills), ("job_skills", .strList job_skills),
         ("resume_skills_normalized", .strList resume_normalized),
         ("job_skills_normalized", .strList job_normalized),
         ("matched_skills", .strSet matched), ("missing_skills", .strSet missing),
         ("total_job_skills", .int job_normalized.length),
         ("total_resume_skills", .int resume_normalized.length),
         ("alignment_ratio", .num alignmentFrac), ("skill_coverage", .num skillCoverage)]
        confidence none

/-! KeywordMatchingAgent (keyword_agent.py).  Its _extract_keywords scans a
fixed vocabulary with word-boundary regexes plus compound-phrase patterns; the
extraction is kept abstract as a `String → Finset String` parameter (the
Python set it returns, list() order unspecified), and everything after it is
translated from analyze. -/
def keywordAnalyze (extractKeywords : String → Finset String) (weight : ℚ)
    (resume : Resume) (job : Job) : AgentResult :=
  let resume_text := pyLower (extractTextContent resume)
  let job_text := pyLower (extractJobContent job)
  let resume_keywords := extractKeywords resume_text
  let job_keywords := extractKeywords job_text
  if job_keywords = ∅ then
    createResult .keyword_matching weight 0
      [("resume_keywords", .strSet resume_keywords), ("job_keywords", .strSet ∅),
       ("matched_keywords", .strSet ∅), ("missing_keywords", .strSet ∅),
       ("total_job_keywords", .int 0), ("total_resume_keywords", .int resume_keywords.card)]
      0 (some "No keywords found in job description")
  else
    let matched_keywords := resume_keywords ∩ job_keywords
    let missing_keywords := job_keywords \ resume_keywords
    let overlapFrac : ℚ := (matched_keywords.card : ℚ) / (job_keywords.card : ℚ)
    let score := pyMinQ 1 overlapFrac
    let total_words_resume := (pySplitWs resume_text).length
    let total_words_job := (pySplitWs job_text).length
    let densityResume : ℚ := (resume_keywords.card : ℚ) / (pyMaxN total_words_resume 1 : ℚ)
    let densityJob : ℚ := (job_keywords.card : ℚ) / (pyMaxN total_words_job 1 : ℚ)
    let confidence := pyMinQ 1 ((densityResume + densityJob) / 2)
    createResult .keyword_matching weight score
      [("resume_keywords", .strSet resume_keywords), ("job_keywords", .strSet job_keywords),
       ("matched_keywords", .strSet matched_keywords), ("missing_keywords", .strSet missing_keywords),
       ("total_job_keywords", .int job_keywords.card),
       ("total_resume_keywords", .int resume_keywords.card),
       ("overlap_frac", .num overlapFrac),
       ("keyword_density_resume", .num densityResume),
       ("keyword_density_job", .num densityJob)]
      confidence none

/-! ExperienceRelevanceAgent (experience_agent.py). -/

structure ExperienceInfo where
  years : Int
  level : String
deriving DecidableEq

def capDigits : RE := .grp 1 (.cls .digit 1 none false)

/-- years? -/
def yrsRE : RE := .seqn [.lit "year", .opt (.lit "s")]

/-- The years-of-experience patterns shared by resume and job extraction
(patterns 1-4 of both lists). -/
def yearsPatsCommon : List RE :=
  [ .seqn [capDigits, .opt (.lit "+"), sp0, yrsRE, sp0,
           .opt (.seqn [.lit "of", sp0]), .alt [.lit "experience", .lit "exp"]],
    .seqn [capDigits, .opt (.lit "+"), sp0, yrsRE, sp0, .alt [.lit "in", .lit "of"]],
    .seqn [capDigits, .opt (.lit "+"), sp0, yrsRE, sp0,
           .alt [.lit "working", .lit "developing", .lit "building"]],
    .seqn [.lit "experience", colsp0, capDigits, .opt (.lit "+"), sp0, yrsRE] ]

/-- Resume-side pattern 5: r'(\d+)\+?\s*years?\s*(?:professional|relevant)'. -/
def resumeYearsPats : List RE :=
  yearsPatsCommon ++
  [ .seqn [capDigits, .opt (.lit "+"), sp0, yrsRE, sp0,
           .alt [.lit "professional", .lit "relevant"]] ]

/-- Job-side patterns 5-6: minimum[:\s]*(\d+)... and at\s*least[:\s]*(\d+)... -/
def jobYearsPats : List RE :=
  yearsPatsCommon ++
  [ .seqn [.lit "minimum", colsp0, capDigits, .opt (.lit "+"), sp0, yrsRE],
    .seqn [.lit "at", sp0, .lit "least", colsp0, capDigits, .opt (.lit "+"), sp0, yrsRE] ]

/-- int() of a digit-only group. -/
def parseNat (s : String) : Nat :=
  s.data.foldl (fun a c => a * 10 + (c.toNat - 48)) 0

/-- The years_found accumulation loop: all findall group values across the
given patterns, kept when in the 0..50 range (the int() conversion cannot fail
on an all-digit group). -/
def findYearsList (pats : List RE) (text : String) : List Nat :=
  (pats.flatMap (fun p => reFindAllG1 p text)).filterMap (fun g =>
    let y := parseNat g
    if y ≤ 50 then some y else none)

def maxOf : Nat → List Nat → Nat
  | a, [] => a
  | a, h :: t => maxOf (pyMaxN a h) t

/-- The seniority_patterns dict shared by resume and job extraction; every
pattern is a plain literal, so re.search is substring containment. -/
def seniorityGroups : List (String × List String) :=
  [("senior", ["senior", "sr.", "lead", "principal", "staff"]),
   ("mid", ["mid-level", "mid level", "intermediate", "experienced"]),
   ("junior", ["junior", "jr.", "entry-level", "entry level", "associate"])]

/-- The first seniority group one of whose patterns matches the text (the
break-out of the nested loops in the source). -/
def findSeniority (text : String) : Option String :=
  (seniorityGroups.find? (fun g => g.2.any (fun p => containsSub p text))).map (fun g => g.1)

/-- The shared fallback: infer a level from a years figure. -/
def levelFromYears (years : Int) : String :=
  if years ≥ 5 then "senior" else if years ≥ 2 then "mid" else "junior"

/-- The date-range patterns of _infer_years_from_jobs.  Pattern 1 has two
groups (findall yields pairs); patterns 2-4 have a single group, so findall
yields the year string itself and the source then indexes match[0] and
match[1], the first two characters of that string. -/
def dateRangeRE : RE :=
  .seqn [.grp 1 (.cls .digit 4 (some 4) false), sp0, .cls .dashC 1 (some 1) false, sp0,
         .grp 2 (.cls .digit 4 (some 4) false)]

def dateOpenRE (word : String) : RE :=
  .seqn [.grp 1 (.cls .digit 4 (some 4) false), sp0, .cls .dashC 1 (some 1) false, sp0, .lit word]

/-- ExperienceRelevanceAgent._infer_years_from_jobs.  datetime.now().year is
the `currentYear` parameter.  For the single-group patterns the source reads
match[0] and match[1] as the first two characters of the matched start year,
so "2020 - present" contributes int("0") - int("2") = -2; the current-year
branch is unreachable because those characters are digits, never "present". -/
def inferYearsFromJobs (currentYear : Int) (text : String) : Int :=
  let fromRanges := (reFindAllG12 dateRangeRE text).map (fun m =>
    (parseNat m.2 : Int) - (parseNat m.1 : Int))
  let openYears := ["present", "current", "now"].flatMap (fun w => reFindAllG1 (dateOpenRE w) text)
  let fromOpen := openYears.filterMap (fun g =>
    match g.data with
    | c0 :: c1 :: _ => some (((c1.toNat - 48 : Nat) : Int) - ((c0.toNat - 48 : Nat) : Int))
    | [c0] => some (currentYear - ((c0.toNat - 48 : Nat) : Int))
    | [] => none)
  match fromRanges ++ fromOpen with
  | [] => 0
  | h :: t => t.foldl pyMaxI h

/-- ExperienceRelevanceAgent._extract_experience_indicators. -/
def extractExperienceIndicators (currentYear : Int) (text : String) : ExperienceInfo :=
  let tl := pyLower text
  let years_found := findYearsList resumeYearsPats tl
  let years : Int := match years_found with
    | [] => inferYearsFromJobs currentYear tl
    | h :: t => (maxOf h t : Int)
  let level := match findSeniority tl with
    | some l => l
    | none => levelFromYears years
  { years := years, level := level }

/-- ExperienceRelevanceAgent._extract_experience_requirements. -/
def extractExperienceRequirements (requirements : List String) : ExperienceInfo :=
  let rt := pyLower (pyJoin " " requirements)
  let years_found := findYearsList jobYearsPats rt
  let years : Int := match years_found with
    | [] => 0
    | h :: t => (maxOf h t : Int)
  let level := match findSeniority rt with
    | some l => l
    | none => levelFromYears years
  { years := years, level := level }

/-- The nested level_scores dict of _calculate_experience_score, with the
.get(..., {}).get(..., 0.5) defaults. -/
def levelPairScore (r j : String) : ℚ :=
  if r = "junior" then
    (if j = "junior" then 1 else if j = "mid" then 0.5 else if j = "senior" then 0.2 else 0.5)
  else if r = "mid" then
    (if j = "junior" then 1 else if j = "mid" then 1 else if j = "senior" then 0.6 else 0.5)
  else if r = "senior" then
    (if j = "junior" then 1 else if j = "mid" then 1 else if j = "senior" then 1 else 0.5)
  else 0.5

/-- ExperienceRelevanceAgent._calculate_experience_score. -/
def calculateExperienceScore (resumeExp jobExp : ExperienceInfo) : ℚ × ℚ :=
  let years_score : ℚ :=
    if jobExp.years = 0 then 1
    else if resumeExp.years ≥ jobExp.years then 1
    else (resumeExp.years : ℚ) / (jobExp.years : ℚ)
  let level_score := levelPairScore resumeExp.level jobExp.level
  let total_score := years_score * 0.7 + level_score * 0.3
  let confidence : ℚ :=
    if resumeExp.years = 0 ∧ jobExp.years = 0 then 0.3
    else if resumeExp.years = 0 ∨ jobExp.years = 0 then 0.6
    else 1
  (pyMinQ 1 total_score, confidence)

/-- ExperienceRelevanceAgent._compare_seniority_levels. -/
def compareSeniorityLevels (r j : String) : String :=
  let rank : String → Int := fun l =>
    if l = "junior" then 1 else if l = "mid" then 2 else if l = "senior" then 3 else 1
  if rank r ≥ rank j then "meets"
  else if rank r = rank j - 1 then "partial"
  else "underqualified"

/-- ExperienceRelevanceAgent.analyze. -/
def experienceAnalyze (currentYear : Int) (weight : ℚ)
    (resume : Resume) (job : Job) : AgentResult :=
  let resume_text := extractTextContent resume
  let resume_experience := extractExperienceIndicators currentYear resume_text
  let job_experience := extractExperienceRequirements job.requirements
  let sc := calculateExperienceScore resume_experience job_experience
  createResult .experience_relevance weight sc.1
    [("resume_experience", .dict [("years", .int resume_experience.years),
                                  ("level", .str resume_experience.level)]),
     ("job_experience", .dict [("years", .int job_experience.years),
                               ("level", .str job_experience.level)]),
     ("years_match", .bool (resume_experience.years ≥ job_experience.years)),
     ("level_match", .str (compareSeniorityLevels resume_experience.level job_experience.level)),
     ("experience_gap", .int (pyMaxI 0 (job_experience.years - resume_experience.years)))]
    sc.2 none

/-! EducationAlignmentAgent (education_agent.py). -/

structure EducationInfo where
  degree_level : String
  level : Int
  field : String
deriving DecidableEq

/-- The degree_levels hierarchy of _init_degree_levels.  Note that it keys
"bachelor" (and "bachelor's"), not "bachelors". -/
def degreeLevels : List (String × Int) :=
  [("phd", 4), ("doctorate", 4), ("doctoral", 4), ("ph.d.", 4), ("d.phil", 4),
   ("master", 3), ("mba", 3), ("ms", 3), ("ma", 3), ("m.s.", 3), ("m.a.", 3),
   ("masters", 3), ("m.sc", 3), ("m.eng", 3),
   ("bachelor", 2), ("bs", 2), ("ba", 2), ("b.s.", 2), ("b.a.", 2),
   ("bachelor\x27s", 2), ("b.tech", 2), ("b.eng", 2), ("b.sc", 2),
   ("associate", 1), ("diploma", 1), ("certificate", 1),
   ("high school", 0), ("secondary", 0)]

/-- The field_mappings of _init_field_mappings. -/
def fieldMappings : List (String × List String) :=
  [("computer science", ["computer science", "cs", "computing", "software engineering", "computer engineering"]),
   ("engineering", ["engineering", "mechanical engineering", "electrical engineering", "civil engineering", "computer engineering"]),
   ("business", ["business", "business administration", "mba", "management", "marketing", "finance", "economics"]),
   ("data science", ["data science", "statistics", "mathematics", "applied mathematics", "analytics"]),
   ("design", ["design", "graphic design", "ui/ux design", "industrial design", "visual design"]),
   ("marketing", ["marketing", "business", "communications", "advertising", "public relations"]),
   ("finance", ["finance", "accounting", "economics", "business", "financial engineering"]),
   ("healthcare", ["medicine", "nursing", "pharmacy", "healthcare", "public health", "biology"]),
   ("education", ["education", "teaching", "pedagogy", "educational technology"]),
   ("psychology", ["psychology", "counseling", "social work", "human resources"])]

/-- The degree_patterns groups of _extract_education (resume side); every
pattern is a plain literal (escaped dots included), so re.search is substring
containment on the lowercased text. -/
def resumeDegreeGroups : List (String × List String) :=
  [("phd", ["phd", "ph.d.", "doctorate", "doctoral", "d.phil"]),
   ("masters", ["master", "mba", "ms", "ma", "m.s.", "m.a.", "masters", "m.sc", "m.eng"]),
   ("bachelors", ["bachelor", "bs", "ba", "b.s.", "b.a.", "bachelor\x27s", "b.tech", "b.eng", "b.sc"]),
   ("associate", ["associate", "diploma", "certificate"]),
   ("high school", ["high school", "secondary", "gce", "a-levels"])]

/-- The degree_patterns groups of _extract_education_requirements (job side);
the "bachelors" group of the source also contains the generic pattern
r'degree'. -/
def jobDegreeGroups : List (String × List String) :=
  [("phd", ["phd", "ph.d.", "doctorate", "doctoral"]),
   ("masters", ["master", "mba", "ms", "ma", "m.s.", "m.a.", "masters"]),
   ("bachelors", ["bachelor", "bs", "ba", "b.s.", "b.a.", "bachelor\x27s", "degree"]),
   ("associate", ["associate", "diploma", "certificate"]),
   ("high school", ["high school", "secondary"])]

/-- The first degree group one of whose patterns occurs in the text, paired
with self.degree_levels.get(group_name, 0). -/
def findDegreeGroup (groups : List (String × List String)) (text : String) :
    Option (String × Int) :=
  (groups.find? (fun g => g.2.any (fun p => containsSub p text))).map
    (fun g => (g.1, (List.lookup g.1 degreeLevels).getD 0))

def capLazyAlphaSpace : RE := .grp 1 (.cls .alphaSpace 1 none true)

/-- Field-of-study patterns of _extract_education (resume side). -/
def resumeFieldPats : List RE :=
  [ .seqn [.alt [.lit "bachelor", .lit "master", .lit "phd", .lit "bs", .lit "ba",
                 .lit "ms", .lit "ma", .lit "mba"],
           .cls .anyNotNl 0 none true, .alt [.lit "in", .lit "of"], sp1,
           capLazyAlphaSpace, endSpCommaDotEos],
    .seqn [.lit "degree", colsp0, .alt [.lit "in", .lit "of"], sp1,
           capLazyAlphaSpace, endSpCommaDotEos],
    .seqn [.lit "studied", colsp0, .alt [.lit "in", .lit "at"], sp1,
           capLazyAlphaSpace, endSpCommaDotEos],
    .seqn [.lit "major", colsp0, .lit "in", sp1, capLazyAlphaSpace, endSpCommaDotEos],
    .seqn [.lit "field", colsp0, .lit "of", sp1, .lit "study", colsp0,
           capLazyAlphaSpace, endSpCommaDotEos] ]

/-- Field-requirement patterns of _extract_education_requirements (job side). -/
def jobFieldPats : List RE :=
  [ .seqn [.alt [.lit "degree", .lit "bachelor", .lit "master", .lit "phd"],
           .cls .anyNotNl 0 none true, .alt [.lit "in", .lit "of"], sp1,
           capLazyAlphaSpace, endSpCommaDotEos],
    .seqn [.lit "education", colsp0, .alt [.lit "in", .lit "of"], sp1,
           capLazyAlphaSpace, endSpCommaDotEos],
    .seqn [.lit "background", colsp0, .alt [.lit "in", .lit "of"], sp1,
           capLazyAlphaSpace, endSpCommaDotEos],
    .seqn [.lit "studied", colsp0, .alt [.lit "in", .lit "at"], sp1,
           capLazyAlphaSpace, endSpCommaDotEos] ]

/-- The shared field-extraction loop: the first pattern whose search succeeds
and whose stripped group has length strictly between 2 and 50 sets the field;
a match failing the length check moves on to the next pattern. -/
def findField (pats : List RE) (text : String) : Option String :=
  pats.findSome? (fun p =>
    match reSearchG1 p text with
    | none => none
    | some g =>
      let field := pyStrip g
      if 2 < sLen field ∧ sLen field < 50 then some field else none)

/-- EducationAlignmentAgent._extract_education. -/
def extractEducation (text : String) : EducationInfo :=
  let tl := pyLower text
  let lvl := match findDegreeGroup resumeDegreeGroups tl with
    | some p => p
    | none => ("bachelor", 2)
  let field := (findField resumeFieldPats tl).getD "general"
  { degree_level := lvl.1, level := lvl.2, field := field }

/-- EducationAlignmentAgent._extract_education_requirements.  The fallback
that maps a bare "degree" mention to ("bachelor", 2) is unreachable: the
"bachelors" pattern group already contains r'degree', so any text containing
"degree" is assigned group name "bachelors", whose degree_levels lookup
defaults to 0. -/
def extractEducationRequirements (requirements : List String) : EducationInfo :=
  let rt := pyLower (pyJoin " " requirements)
  let lvl := match findDegreeGroup jobDegreeGroups rt with
    | some p => p
    | none => if containsSub "degree" rt then ("bachelor", 2) else ("high school", 0)
  let field := (findField jobFieldPats rt).getD "general"
  { degree_level := lvl.1, level := lvl.2, field := field }

/-- The inner category loop of _calculate_field_score; `f in resume_field` is
Python substring containment. -/
def fieldCategoryScore (rf jf : String) : Option ℚ :=
  fieldMappings.findSome? (fun cat =>
    if rf ∈ cat.2 ∧ jf ∈ cat.2 then some 0.8
    else if rf ∈ cat.2 ∨ jf ∈ cat.2 then
      (if cat.2.any (fun f => containsSub f rf) ∧ cat.2.any (fun f => containsSub f jf)
       then some 0.6 else none)
    else none)

/-- EducationAlignmentAgent._calculate_field_score. -/
def calculateFieldScore (rf jf : String) : ℚ :=
  if rf = "" ∨ jf = "" ∨ rf = "general" ∨ jf = "general" then 0.5
  else if rf = jf then 1
  else match fieldCategoryScore rf jf with
  | some v => v
  | none =>
    if (pySplitWs rf).toFinset ∩ (pySplitWs jf).toFinset ≠ ∅ then 0.4 else 0.2

/-- The level-score component of _calculate_education_score. -/
def educationLevelScore (resumeLevel jobLevel : Int) : ℚ :=
  if jobLevel = 0 then 1
  else if resumeLevel ≥ jobLevel then 1
  else (resumeLevel : ℚ) / (pyMaxI jobLevel 1 : ℚ)

/-- EducationAlignmentAgent._calculate_education_score. -/
def calculateEducationScore (resumeEdu jobEdu : EducationInfo) : ℚ × ℚ :=
  let level_score := educationLevelScore resumeEdu.level jobEdu.level
  let field_score := calculateFieldScore (pyLower resumeEdu.field) (pyLower jobEdu.field)
  let total_score := level_score * 0.7 + field_score * 0.3
  let confidence : ℚ :=
    if resumeEdu.level = 0 ∧ jobEdu.level = 0 then 0.3
    else if resumeEdu.level = 0 ∨ jobEdu.level = 0 then 0.6
    else 1
  (pyMinQ 1 total_score, confidence)

/-- EducationAlignmentAgent._compare_fields. -/
def compareFields (rf jf : String) : String :=
  if rf = "" ∨ jf = "" then "unclear"
  else
    let fs := calculateFieldScore (pyLower rf) (pyLower jf)
    if fs ≥ 0.8 then "exact"
    else if fs ≥ 0.6 then "related"
    else if fs ≥ 0.4 then "partial"
    else "unrelated"

/-- EducationAlignmentAgent.analyze. -/
def educationAnalyze (weight : ℚ) (resume : Resume) (job : Job) : AgentResult :=
  let resume_text := extractTextContent resume
  let resume_education := extractEducation resume_text
  let job_education := extractEducationRequirements job.requirements
  let sc := calculateEducationScore resume_education job_education
  createResult .education_alignment weight sc.1
    [("resume_education", .dict [("degree_level", .str resume_education.degree_level),
                                 ("level", .int resume_education.level),
                                 ("field", .str resume_education.field)]),
     ("job_education", .dict [("degree_level", .str job_education.degree_level),
                              ("level", .int job_education.level),
                              ("field", .str job_education.field)]),
     ("degree_level_match", .bool (resume_education.level ≥ job_education.level)),
     ("field_match", .str (compareFields resume_education.field job_education.field)),
     ("education_gap", .int (pyMaxI 0 (job_education.level - resume_education.level)))]
    sc.2 none

/-! SemanticSimilarityAgent (semantic_agent.py).  The embedding collaborator
(routers.resumes.generate_embedding, out of scope per the spec) is the
`embedFn` parameter, with exceptions and None both modelled as none; the
floating-point square root of np.linalg.norm is the abstract `sqrtFn`
parameter, except that the norm-is-zero tests, which are exact, are modelled
as sum-of-squares-is-zero tests. -/

def sumSq (v : List ℚ) : ℚ := (v.map (fun x => x * x)).sum

def dotQ (a b : List ℚ) : ℚ := ((a.zip b).map (fun p => p.1 * p.2)).sum

/-- SemanticSimilarityAgent._generate_embedding. -/
def generateEmbedding (embedFn : String → Option (List ℚ)) (text : String) :
    Option (List ℚ) :=
  if text = "" ∨ sLen (pyStrip text) < 10 then none else embedFn text

/-- SemanticSimilarityAgent._calculate_cosine_similarity.  Mismatched
dimensions are truncated to the shorter length; a zero vector short-circuits
to 0; otherwise the similarity is clamped into [-1, 1]. -/
def cosineSimilarity (sqrtFn : ℚ → ℚ) (e1 e2 : List ℚ) : ℚ :=
  let n := pyMinN e1.length e2.length
  let v1 := e1.take n
  let v2 := e2.take n
  if sumSq v1 = 0 ∨ sumSq v2 = 0 then 0
  else pyMaxQ (-1) (pyMinQ 1 (dotQ v1 v2 / (sqrtFn (sumSq v1) * sqrtFn (sumSq v2))))

/-- np.var (population variance, exact over ℚ; the source never applies it to
an empty vector, for which numpy would produce NaN). -/
def varQ (v : List ℚ) : ℚ :=
  if v.length = 0 then 0
  else
    let n : ℚ := v.length
    let m := v.sum / n
    ((v.map (fun x => (x - m) ^ 2)).sum) / n

/-- SemanticSimilarityAgent._calculate_embedding_confidence.  The NaN/infinity
branch of the source cannot fire over ℚ, and its try/except default of 0.5 is
unreachable in this total model. -/
def embeddingConfidence (e1 e2 : List ℚ) : ℚ :=
  if e1.length ≠ e2.length then 0.5
  else if sumSq e1 = 0 ∨ sumSq e2 = 0 then 0.1
  else if e1.all (fun x => x = 0) ∨ e2.all (fun x => x = 0) then 0.2
  else
    let v1 := varQ e1
    let v2 := varQ e2
    if v1 > 0.01 ∧ v2 > 0.01 then 1
    else if v1 > 0.001 ∧ v2 > 0.001 then 0.8
    else 0.6

/-- SemanticSimilarityAgent.analyze. -/
def semanticAnalyze (embedFn : String → Option (List ℚ)) (sqrtFn : ℚ → ℚ)
    (weight : ℚ) (resume : Resume) (job : Job) : AgentResult :=
  let resume_text := extractTextContent resume
  let job_text := extractJobContent job
  let resume_embedding := generateEmbedding embedFn resume_text
  let job_embedding := generateEmbedding embedFn job_text
  match resume_embedding, job_embedding with
  | some e1, some e2 =>
    let similarity_score := cosineSimilarity sqrtFn e1 e2
    let normalized_score := pyMaxQ 0 ((similarity_score + 1) / 2)
    let confidence := embeddingConfidence e1 e2
    createResult .semantic_similarity weight normalized_score
      [("resume_embedding_generated", .bool true), ("job_embedding_generated", .bool true),
       ("similarity_score", .num similarity_score), ("normalized_score", .num normalized_score),
       ("embedding_dimensions", .int e1.length),
       ("resume_text_length", .int (sLen resume_text)),
       ("job_text_length", .int (sLen job_text))]
      confidence none
  | r, j =>
    createResult .semantic_similarity weight 0
      [("resume_embedding_generated", .bool r.isSome),
       ("job_embedding_generated", .bool j.isSome),
       ("similarity_score", .num 0)]
      0 (some "Failed to generate embeddings")

/-! MultiAgentScoringCoordinator (scoring_coordinator.py). -/

/-- The agents dict in its insertion order. -/
def agentOrder : List AgentType :=
  [.keyword_matching, .skill_matching, .experience_relevance,
   .education_alignment, .semantic_similarity]

/-- The weights the coordinator's __init__ hands to the five agents. -/
def configWeights : AgentType → ℚ
  | .keyword_matching => 0.20
  | .skill_matching => 0.25
  | .experience_relevance => 0.20
  | .education_alignment => 0.10
  | .semantic_similarity => 0.25

/-- MultiAgentScoringCoordinator.__init__, generalised over the five weights
the agents are constructed with (the source passes 0.20, 0.25, 0.20, 0.10,
0.25): the weight-sum check runs once here and nowhere else.  A failed check
is the raised ValueError. -/
def initCoordinator (kw sk ex ed se : ℚ) : Except String (AgentType → ℚ) :=
  let total_weight := kw + sk + ex + ed + se
  if pyAbsQ (total_weight - 1) > 0.001 then .error "Agent weights must sum to 1.0"
  else .ok (fun t => match t with
    | .keyword_matching => kw
    | .skill_matching => sk
    | .experience_relevance => ex
    | .education_alignment => ed
    | .semantic_similarity => se)

/-- The per-task collection step of score_resume: awaiting one agent's task
either yields its AgentResult or raises, in which case the substitute result
is built in place with score 0, confidence 0, empty evidence, the error
message, and the agent's configured weight. -/
def collect (w : AgentType → ℚ) (outcomes : AgentType → Except String AgentResult)
    (t : AgentType) : AgentResult :=
  match outcomes t with
  | .ok r => r
  | .error e =>
    { agent_type := t, score := 0, percentage := 0, weight := w t,
      evidence := [], confidence := 0, error := some ("Agent failed: " ++ e) }

/-- Formatted per-agent sub-object of the breakdown; the None-result branch of
_format_agent_result omits the confidence and evidence keys, hence the Option
fields. -/
structure FormattedResult where
  score : ℚ
  percentage : ℚ
  weight : Int
  confidence : Option ℚ
  evidence : Option Evidence
  error : Option String

/-- Python int() truncates toward zero. -/
def pyInt (q : ℚ) : Int := if q ≥ 0 then ⌊q⌋ else ⌈q⌉

/-- MultiAgentScoringCoordinator._format_agent_result. -/
def formatAgentResult (r : Option AgentResult) : FormattedResult :=
  match r with
  | none =>
    { score := 0, percentage := 0, weight := 0, confidence := none,
      evidence := none, error := some "Agent not available" }
  | some r =>
    { score := r.score, percentage := r.percentage, weight := pyInt (r.weight * 100),
      confidence := some r.confidence, evidence := some r.evidence, error := r.error }

/-- ScoringBreakdown.  The creation timestamp (datetime.utcnow) is outside the
model; agent_results is the dict keyed by agent type, in which score_resume
always stores one entry per agent. -/
structure ScoringBreakdown where
  keyword_match : FormattedResult
  skills_alignment : FormattedResult
  experience_relevance : FormattedResult
  education_alignment : FormattedResult
  semantic_similarity : FormattedResult
  total_score : ℚ
  match_percentage : ℚ
  skills_match : Finset String
  missing_skills : Finset String
  agent_results : AgentType → AgentResult
  confidence : ℚ

/-- MultiAgentScoringCoordinator.score_resume, parameterised over the agents'
task outcomes (an exception inside a task is the .error case, handled by
`collect`).  Every step of the body is total here, so the outer try/except of
the source, which would return the all-zero error breakdown, cannot fire, and
a breakdown is returned for every outcome assignment.  The confidence
normalisation divides by the successful agents' weight sum exactly as the
source does; with the shipped positive weights that sum is nonzero whenever
valid_agents > 0 (for a zero sum Python would raise ZeroDivisionError into
the outer except, while ℚ division yields 0). -/
def scoreResume (w : AgentType → ℚ) (outcomes : AgentType → Except String AgentResult) :
    ScoringBreakdown :=
  let ar := collect w outcomes
  let results := agentOrder.map ar
  let total_score := results.foldl
    (fun acc r => if r.error.isNone then acc + r.score * r.weight else acc) 0
  let total_confidence0 := results.foldl
    (fun acc r => if r.error.isNone then acc + r.confidence * r.weight else acc) 0
  let valid_agents := results.foldl
    (fun acc r => if r.error.isNone then acc + 1 else acc) (0 : Nat)
  let total_confidence :=
    if valid_agents > 0 then
      total_confidence0 / ((results.filter (fun r => r.error.isNone)).map (fun r => r.weight)).sum
    else 0
  let skill_result := ar .skill_matching
  let skills_match := if skill_result.error.isNone
    then getStrSet skill_result.evidence "matched_skills" else ∅
  let missing_skills := if skill_result.error.isNone
    then getStrSet skill_result.evidence "missing_skills" else ∅
  { keyword_match := formatAgentResult (some (ar .keyword_matching))
    skills_alignment := formatAgentResult (some (ar .skill_matching))
    experience_relevance := formatAgentResult (some (ar .experience_relevance))
    education_alignment := formatAgentResult (some (ar .education_alignment))
    semantic_similarity := formatAgentResult (some (ar .semantic_similarity))
    total_score := total_score
    match_percentage := total_score * 100
    skills_match := skills_match
    missing_skills := missing_skills
    agent_results := ar
    confidence := total_confidence }

/-- The abstract collaborators and environment an end-to-end scoring call
depends on: the keyword agent's vocabulary extraction, the skill agent's
taxonomy mappings, the current calendar year, the embedding provider and the
floating-point square root. -/
structure ScoreEnv where
  extractKeywords : String → Finset String
  mappings : List (String × String)
  currentYear : Int
  embedFn : String → Option (List ℚ)
  sqrtFn : ℚ → ℚ

/-- The analyze call of each configured agent, with the weights the
coordinator's __init__ passes. -/
def analyzeOf (env : ScoreEnv) : AgentType → Resume → Job → AgentResult
  | .keyword_matching => keywordAnalyze env.extractKeywords 0.20
  | .skill_matching => skillAnalyze env.mappings 0.25
  | .experience_relevance => experienceAnalyze env.currentYear 0.20
  | .education_alignment => educationAnalyze 0.10
  | .semantic_similarity => semanticAnalyze env.embedFn env.sqrtFn 0.25

/-! Bridging lemmas between the Python-style order helpers and the Mathlib
operations, and elementary bounds. -/

theorem pyMinQ_eq (a b : ℚ) : pyMinQ a b = min a b := by rw [pyMinQ, min_def]

theorem pyMaxQ_eq (a b : ℚ) : pyMaxQ a b = max a b := by rw [pyMaxQ, max_def]

theorem pyAbsQ_eq (q : ℚ) : pyAbsQ q = |q| := by
  rw [pyAbsQ]
  rcases lt_or_le q 0 with h | h
  · simp [h, abs_of_neg h]
  · simp [not_lt.mpr h, abs_of_nonneg h]

theorem clamp01_nonneg (s : ℚ) : 0 ≤ pyMaxQ 0 (pyMinQ 1 s) := by
  unfold pyMaxQ pyMinQ; split_ifs <;> linarith

theorem clamp01_le_one (s : ℚ) : pyMaxQ 0 (pyMinQ 1 s) ≤ 1 := by
  unfold pyMaxQ pyMinQ; split_ifs <;> linarith

theorem pyMinQ_one_nonneg {x : ℚ} (hx : 0 ≤ x) : 0 ≤ pyMinQ 1 x := by
  unfold pyMinQ; split_ifs <;> linarith

theorem pyMinQ_one_le_one (x : ℚ) : pyMinQ 1 x ≤ 1 := by
  unfold pyMinQ; split_ifs <;> linarith

/-! The per-agent invariants used by the coordinator-level bounds: every
analyze result has a clamped score, a confidence in [0,1], and the weight the
agent was constructed with. -/

theorem createResult_score_bounds (t w s e c err) :
    0 ≤ (createResult t w s e c err).score ∧ (createResult t w s e c err).score ≤ 1 :=
  ⟨clamp01_nonneg s, clamp01_le_one s⟩

theorem keywordAnalyze_bounds (ek : String → Finset String) (w : ℚ) (resume : Resume) (job : Job) :
    0 ≤ (keywordAnalyze ek w resume job).confidence
    ∧ (keywordAnalyze ek w resume job).confidence ≤ 1
    ∧ (keywordAnalyze ek w resume job).weight = w := by
  unfold keywordAnalyze
  dsimp only
  split_ifs
  · exact ⟨le_refl 0, by norm_num [createResult], rfl⟩
  · refine ⟨?_, pyMinQ_one_le_one _, rfl⟩
    apply pyMinQ_one_nonneg
    have h1 : (0:ℚ) ≤ (ek (pyLower (extractTextContent resume))).card /
        (pyMaxN (pySplitWs (pyLower (extractTextContent resume))).length 1 : ℚ) :=
      div_nonneg (by positivity) (by positivity)
    have h2 : (0:ℚ) ≤ (ek (pyLower (extractJobContent job))).card /
        (pyMaxN (pySplitWs (pyLower (extractJobContent job))).length 1 : ℚ) :=
      div_nonneg (by positivity) (by positivity)
    linarith

theorem skillAnalyze_bounds (m : List (String × String)) (w : ℚ) (resume : Resume) (job : Job) :
    0 ≤ (skillAnalyze m w resume job).confidence
    ∧ (skillAnalyze m w resume job).confidence ≤ 1
    ∧ (skillAnalyze m w resume job).weight = w := by
  unfold skillAnalyze
  dsimp only
  split_ifs
  · exact ⟨le_refl 0, by norm_num [createResult], rfl⟩
  · exact ⟨le_refl 0, by norm_num [createResult], rfl⟩
  · refine ⟨?_, pyMinQ_one_le_one _, rfl⟩
    apply pyMinQ_one_nonneg
    have h1 : (0:ℚ) ≤ ((extractSkills m (extractTextContent resume)).filterMap
          (normalizeSkill m)).toFinset.card /
        (pyMaxN ((job.skills.map pyLower).filterMap (normalizeSkill m)).length 1 : ℚ) := by
      apply div_nonneg (by positivity) (by positivity)
    have h2 : (0:ℚ) ≤ (((extractSkills m (extractTextContent resume)).filterMap
            (normalizeSkill m)).toFinset ∩
          ((job.skills.map pyLower).filterMap (normalizeSkill m)).toFinset).card /
        (pyMaxN ((job.skills.map pyLower).filterMap (normalizeSkill m)).length 1 : ℚ) := by
      apply div_nonneg (by positivity) (by positivity)
    linarith

theorem calculateExperienceScore_conf_bounds (a b : ExperienceInfo) :
    0 ≤ (calculateExperienceScore a b).2 ∧ (calculateExperienceScore a b).2 ≤ 1 := by
  unfold calculateExperienceScore
  dsimp only
  split_ifs <;> norm_num

theorem experienceAnalyze_bounds (cy : Int) (w : ℚ) (resume : Resume) (job : Job) :
    0 ≤ (experienceAnalyze cy w resume job).confidence
    ∧ (experienceAnalyze cy w resume job).confidence ≤ 1
    ∧ (experienceAnalyze cy w resume job).weight = w := by
  have h := calculateExperienceScore_conf_bounds
    (extractExperienceIndicators cy (extractTextContent resume))
    (extractExperienceRequirements job.requirements)
  exact ⟨h.1, h.2, rfl⟩

theorem calculateEducationScore_conf_bounds (a b : EducationInfo) :
    0 ≤ (calculateEducationScore a b).2 ∧ (calculateEducationScore a b).2 ≤ 1 := by
  unfold calculateEducationScore
  dsimp only
  split_ifs <;> norm_num

theorem educationAnalyze_bounds (w : ℚ) (resume : Resume) (job : Job) :
    0 ≤ (educationAnalyze w resume job).confidence
    ∧ (educationAnalyze w resume job).confidence ≤ 1
    ∧ (educationAnalyze w resume job).weight = w := by
  have h := calculateEducationScore_conf_bounds
    (extractEducation (extractTextContent resume))
    (extractEducationRequirements job.requirements)
  exact ⟨h.1, h.2, rfl⟩

theorem embeddingConfidence_bounds (e1 e2 : List ℚ) :
    0 ≤ embeddingConfidence e1 e2 ∧ embeddingConfidence e1 e2 ≤ 1 := by
  unfold embeddingConfidence
  dsimp only
  split_ifs <;> norm_num

theorem semanticAnalyze_bounds (ef : String → Option (List ℚ)) (sf : ℚ → ℚ) (w : ℚ)
    (resume : Resume) (job : Job) :
    0 ≤ (semanticAnalyze ef sf w resume job).confidence
    ∧ (semanticAnalyze ef sf w resume job).confidence ≤ 1
    ∧ (semanticAnalyze ef sf w resume job).weight = w := by
  unfold semanticAnalyze
  dsimp only
  rcases generateEmbedding ef (extractTextContent resume) with _ | e1 <;>
    rcases generateEmbedding ef (extractJobContent job) with _ | e2 <;>
    first
      | exact ⟨le_refl 0, by norm_num [createResult], rfl⟩
      | exact ⟨(embeddingConfidence_bounds e1 e2).1, (embeddingConfidence_bounds e1 e2).2, rfl⟩

theorem analyzeOf_bounds (env : ScoreEnv) (t : AgentType) (resume : Resume) (job : Job) :
    0 ≤ (analyzeOf env t resume job).score ∧ (analyzeOf env t resume job).score ≤ 1
    ∧ 0 ≤ (analyzeOf env t resume job).confidence ∧ (analyzeOf env t resume job).confidence ≤ 1
    ∧ (analyzeOf env t resume job).weight = configWeights t := by
  cases t
  case keyword_matching =>
    have hb := keywordAnalyze_bounds env.extractKeywords 0.20 resume job
    have hs : ∃ s e c err, keywordAnalyze env.extractKeywords 0.20 resume job =
        createResult .keyword_matching 0.20 s e c err := by
      unfold keywordAnalyze; dsimp only; split_ifs <;> exact ⟨_, _, _, _, rfl⟩
    obtain ⟨s, e, c, err, hsc⟩ := hs
    rw [analyzeOf, hsc]
    rw [hsc] at hb
    exact ⟨clamp01_nonneg s, clamp01_le_one s, hb.1, hb.2.1, hb.2.2⟩
  case skill_matching =>
    have hb := skillAnalyze_bounds env.mappings 0.25 resume job
    have hs : ∃ s e c err, skillAnalyze env.mappings 0.25 resume job =
        createResult .skill_matching 0.25 s e c err := by
      unfold skillAnalyze; dsimp only; split_ifs <;> exact ⟨_, _, _, _, rfl⟩
    obtain ⟨s, e, c, err, hsc⟩ := hs
    rw [analyzeOf, hsc]
    rw [hsc] at hb
    exact ⟨clamp01_nonneg s, clamp01_le_one s, hb.1, hb.2.1, hb.2.2⟩
  case experience_relevance =>
    have hb := experienceAnalyze_bounds env.currentYear 0.20 resume job
    have hs : ∃ s e c err, experienceAnalyze env.currentYear 0.20 resume job =
        createResult .experience_relevance 0.20 s e c err := ⟨_, _, _, _, rfl⟩
    obtain ⟨s, e, c, err, hsc⟩ := hs
    rw [analyzeOf, hsc]
    rw [hsc] at hb
    exact ⟨clamp01_nonneg s, clamp01_le_one s, hb.1, hb.2.1, hb.2.2⟩
  case education_alignment =>
    have hb := educationAnalyze_bounds 0.10 resume job
    have hs : ∃ s e c err, educationAnalyze 0.10 resume job =
        createResult .education_alignment 0.10 s e c err := ⟨_, _, _, _, rfl⟩
    obtain ⟨s, e, c, err, hsc⟩ := hs
    rw [analyzeOf, hsc]
    rw [hsc] at hb
    exact ⟨clamp01_nonneg s, clamp01_le_one s, hb.1, hb.2.1, hb.2.2⟩
  case semantic_similarity =>
    have hb := semanticAnalyze_bounds env.embedFn env.sqrtFn 0.25 resume job
    have hs : ∃ s e c err, semanticAnalyze env.embedFn env.sqrtFn 0.25 resume job =
        createResult .semantic_similarity 0.25 s e c err := by
      unfold semanticAnalyze
      dsimp only
      rcases generateEmbedding env.embedFn (extractTextContent resume) with _ | e1 <;>
        rcases generateEmbedding env.embedFn (extractJobContent job) with _ | e2 <;>
        exact ⟨_, _, _, _, rfl⟩
    obtain ⟨s, e, c, err, hsc⟩ := hs
    rw [analyzeOf, hsc]
    rw [hsc] at hb
    exact ⟨clamp01_nonneg s, clamp01_le_one s, hb.1, hb.2.1, hb.2.2⟩

/-! Folds over the collected agent results, rewritten as sums over the subset
of results without error, as the aggregation claims state them. -/

def errFree (r : AgentResult) : Bool := r.error.isNone

theorem foldl_if_add {α : Type} (p : α → Bool) (g : α → ℚ) :
    ∀ (l : List α) (a : ℚ),
      l.foldl (fun acc r => if p r then acc + g r else acc) a
        = a + ((l.filter p).map g).sum := by
  intro l
  induction l with
  | nil => simp
  | cons h t ih =>
    intro a
    by_cases hp : p h <;>
      simp [hp, ih, List.filter_cons_of_pos, List.filter_cons_of_neg] <;> ring

theorem foldl_if_count {α : Type} (p : α → Bool) :
    ∀ (l : List α) (a : Nat),
      l.foldl (fun acc r => if p r then acc + 1 else acc) a
        = a + (l.filter p).length := by
  intro l
  induction l with
  | nil => simp
  | cons h t ih =>
    intro a
    by_cases hp : p h <;>
      simp [hp, ih, List.filter_cons_of_pos, List.filter_cons_of_neg] <;> omega

theorem scoreResume_total (w : AgentType → ℚ) (f : AgentType → Except String AgentResult) :
    (scoreResume w f).total_score
      = (((agentOrder.map (collect w f)).filter errFree).map (fun r => r.score * r.weight)).sum := by
  show (agentOrder.map (collect w f)).foldl
      (fun acc r => if r.error.isNone then acc + r.score * r.weight else acc) 0 = _
  rw [foldl_if_add]
  rw [Rat.zero_add]
  rfl

theorem scoreResume_match_percentage (w : AgentType → ℚ) (f : AgentType → Except String AgentResult) :
    (scoreResume w f).match_percentage = (scoreResume w f).total_score * 100 := rfl

theorem scoreResume_confidence (w : AgentType → ℚ) (f : AgentType → Except String AgentResult) :
    (scoreResume w f).confidence
      = (if ((agentOrder.map (collect w f)).filter errFree).isEmpty then 0
         else (((agentOrder.map (collect w f)).filter errFree).map
                 (fun r => r.confidence * r.weight)).sum
              / (((agentOrder.map (collect w f)).filter errFree).map (fun r => r.weight)).sum) := by
  show (if ((agentOrder.map (collect w f)).foldl
          (fun acc r => if r.error.isNone then acc + 1 else acc) (0:Nat)) > 0 then
        ((agentOrder.map (collect w f)).foldl
          (fun acc r => if r.error.isNone then acc + r.confidence * r.weight else acc) 0)
          / (((agentOrder.map (collect w f)).filter (fun r => r.error.isNone)).map
              (fun r => r.weight)).sum
      else 0) = _
  rw [foldl_if_count, foldl_if_add]
  rcases h : ((agentOrder.map (collect w f)).filter errFree) with _ | ⟨r, rest⟩
  · rw [show ((agentOrder.map (collect w f)).filter (fun x => x.error.isNone)) = [] from h]
    simp
  · rw [show ((agentOrder.map (collect w f)).filter (fun x => x.error.isNone)) = r :: rest from h]
    simp

theorem scoreResume_agent_results (w : AgentType → ℚ) (f : AgentType → Except String AgentResult)
    (t : AgentType) :
    (scoreResume w f).agent_results t = collect w f t := rfl

theorem scoreResume_skills_match (w : AgentType → ℚ) (f : AgentType → Except String AgentResult) :
    (scoreResume w f).skills_match
      = (if (collect w f .skill_matching).error.isNone
         then getStrSet (collect w f .skill_matching).evidence "matched_skills" else ∅) := rfl

theorem scoreResume_missing_skills (w : AgentType → ℚ) (f : AgentType → Except String AgentResult) :
    (scoreResume w f).missing_skills
      = (if (collect w f .skill_matching).error.isNone
         then getStrSet (collect w f .skill_matching).evidence "missing_skills" else ∅) := rfl

/-- Weighted-score sums over the error-free subset are nonnegative and bounded
by the weight sum of the whole list, for results with clamped scores and
nonnegative weights. -/
theorem sum_weighted_bounds :
    ∀ l : List AgentResult,
      (∀ r ∈ l, 0 ≤ r.score ∧ r.score ≤ 1 ∧ 0 ≤ r.weight) →
      0 ≤ ((l.filter errFree).map (fun r => r.score * r.weight)).sum
      ∧ ((l.filter errFree).map (fun r => r.score * r.weight)).sum
          ≤ (l.map (fun r => r.weight)).sum := by
  intro l
  induction l with
  | nil => intro _; simp
  | cons r rest ih =>
    intro h
    obtain ⟨hs0, hs1, hw0⟩ := h r (List.mem_cons_self r rest)
    have ihh := ih (fun x hx => h x (List.mem_cons_of_mem r hx))
    have hsw0 : 0 ≤ r.score * r.weight := mul_nonneg hs0 hw0
    have hsw1 : r.score * r.weight ≤ r.weight := by nlinarith
    by_cases he : errFree r
    · simp only [List.filter_cons_of_pos he, List.map, List.sum_cons]
      constructor
      · linarith [ihh.1]
      · linarith [ihh.2]
    · simp only [List.filter_cons_of_neg he, List.map, List.sum_cons]
      constructor
      · exact ihh.1
      · linarith [ihh.2]

/-- Weighted-confidence sums over the error-free subset are nonnegative and
bounded by that subset's weight sum, for confidences in [0,1]. -/
theorem sum_conf_bounds :
    ∀ l : List AgentResult,
      (∀ r ∈ l, 0 ≤ r.confidence ∧ r.confidence ≤ 1 ∧ 0 ≤ r.weight) →
      0 ≤ ((l.filter errFree).map (fun r => r.confidence * r.weight)).sum
      ∧ ((l.filter errFree).map (fun r => r.confidence * r.weight)).sum
          ≤ ((l.filter errFree).map (fun r => r.weight)).sum := by
  intro l
  induction l with
  | nil => intro _; simp
  | cons r rest ih =>
    intro h
    obtain ⟨hs0, hs1, hw0⟩ := h r (List.mem_cons_self r rest)
    have ihh := ih (fun x hx => h x (List.mem_cons_of_mem r hx))
    have hsw0 : 0 ≤ r.confidence * r.weight := mul_nonneg hs0 hw0
    have hsw1 : r.confidence * r.weight ≤ r.weight := by nlinarith
    by_cases he : errFree r
    · simp only [List.filter_cons_of_pos he, List.map, List.sum_cons]
      constructor
      · linarith [ihh.1]
      · linarith [ihh.2]
    · simp only [List.filter_cons_of_neg he]
      exact ihh

theorem div_bounds_01 {num den : ℚ} (h0 : 0 ≤ num) (h1 : num ≤ den) :
    0 ≤ num / den ∧ num / den ≤ 1 := by
  rcases eq_or_lt_of_le (le_trans h0 h1) with hd | hd
  · constructor <;> simp [← hd]
  · exact ⟨div_nonneg h0 hd.le, (div_le_one hd).mpr h1⟩

/-- Every collected result under outcomes that are either the respective
agent's analyze result or a task failure satisfies the per-result invariants
the aggregation bounds need. -/
theorem collect_bounds (env : ScoreEnv) (resume : Resume) (job : Job)
    (f : AgentType → Except String AgentResult)
    (h : ∀ t, f t = .ok (analyzeOf env t resume job) ∨ ∃ e, f t = .error e)
    (t : AgentType) :
    (0 ≤ (collect configWeights f t).score ∧ (collect configWeights f t).score ≤ 1
     ∧ 0 ≤ (collect configWeights f t).confidence ∧ (collect configWeights f t).confidence ≤ 1
     ∧ (collect configWeights f t).weight = configWeights t) := by
  rcases h t with hok | ⟨e, he⟩
  · rw [collect, hok]
    exact analyzeOf_bounds env t resume job
  · rw [collect, he]
    norm_num

theorem configWeights_pos (t : AgentType) : 0 < configWeights t := by
  cases t <;> norm_num [configWeights]

/-- C3.  For every profile/job input and every collaborator environment, each
of the five agents' analyze results has its score and confidence in [0,1], and
for any assignment of task outcomes drawn from those agents (each task either
completing with its agent's result or failing), the breakdown's total_score
and aggregate confidence are in [0,1]. -/
theorem scoring_bounds (env : ScoreEnv) (resume : Resume) (job : Job)
    (f : AgentType → Except String AgentResult)
    (h : ∀ t, f t = .ok (analyzeOf env t resume job) ∨ ∃ e, f t = .error e) :
    (∀ t, 0 ≤ (analyzeOf env t resume job).score ∧ (analyzeOf env t resume job).score ≤ 1
        ∧ 0 ≤ (analyzeOf env t resume job).confidence
        ∧ (analyzeOf env t resume job).confidence ≤ 1)
    ∧ (0 ≤ (scoreResume configWeights f).total_score
        ∧ (scoreResume configWeights f).total_score ≤ 1)
    ∧ (0 ≤ (scoreResume configWeights f).confidence
        ∧ (scoreResume configWeights f).confidence ≤ 1) := by
  have hper : ∀ r ∈ agentOrder.map (collect configWeights f),
      (0 ≤ r.score ∧ r.score ≤ 1 ∧ 0 ≤ r.weight)
      ∧ (0 ≤ r.confidence ∧ r.confidence ≤ 1 ∧ 0 ≤ r.weight) := by
    intro r hr
    obtain ⟨t, _, rfl⟩ := List.mem_map.mp hr
    obtain ⟨h1, h2, h3, h4, h5⟩ := collect_bounds env resume job f h t
    have hw : 0 ≤ (collect configWeights f t).weight := by
      rw [h5]; exact (configWeights_pos t).le
    exact ⟨⟨h1, h2, hw⟩, ⟨h3, h4, hw⟩⟩
  have hwsum : ((agentOrder.map (collect configWeights f)).map (fun r => r.weight)).sum = 1 := by
    have hmap : (agentOrder.map (collect configWeights f)).map (fun r => r.weight)
        = agentOrder.map (fun t => configWeights t) := by
      rw [List.map_map]
      apply List.map_congr_left
      intro t _
      exact (collect_bounds env resume job f h t).2.2.2.2
    rw [hmap]
    norm_num [agentOrder, configWeights]
  refine ⟨fun t => ⟨(analyzeOf_bounds env t resume job).1, (analyzeOf_bounds env t resume job).2.1,
      (analyzeOf_bounds env t resume job).2.2.1, (analyzeOf_bounds env t resume job).2.2.2.1⟩, ?_, ?_⟩
  · rw [scoreResume_total]
    have hb := sum_weighted_bounds (agentOrder.map (collect configWeights f))
      (fun r hr => (hper r hr).1)
    exact ⟨hb.1, le_trans hb.2 (le_of_eq hwsum)⟩
  · rw [scoreResume_confidence]
    by_cases hcase : ((agentOrder.map (collect configWeights f)).filter errFree).isEmpty = true
    · rw [if_pos hcase]
      norm_num
    · rw [if_neg hcase]
      have hb := sum_conf_bounds (agentOrder.map (collect configWeights f))
        (fun r hr => (hper r hr).2)
      exact div_bounds_01 hb.1 hb.2

/-- C4.  Coordinator construction (generalised over the five weights the
agents are built with, as the source's agent constructors take them) succeeds
exactly when the weights sum to 1.0 within the 1e-3 tolerance; a successful
construction stores exactly the given weights; and scoring runs without any
weight-sum validation: for an arbitrary, even invalid, weight assignment, a
failed agent's substitute result still carries the configured weight, so the
check happens once at construction and never per call. -/
theorem coordinator_weight_validation (kw sk ex ed se : ℚ) :
    ((∃ w', initCoordinator kw sk ex ed se = .ok w') ↔ |kw + sk + ex + ed + se - 1| ≤ 1/1000)
    ∧ (∀ w', initCoordinator kw sk ex ed se = .ok w' →
        w' .keyword_matching = kw ∧ w' .skill_matching = sk ∧ w' .experience_relevance = ex
        ∧ w' .education_alignment = ed ∧ w' .semantic_similarity = se)
    ∧ (∀ (w : AgentType → ℚ) (f : AgentType → Except String AgentResult) (t : AgentType)
        (e : String), f t = .error e →
        ((scoreResume w f).agent_results t).weight = w t) := by
  refine ⟨?_, ?_, ?_⟩
  · simp only [initCoordinator]
    rw [pyAbsQ_eq]
    constructor
    · intro hw
      by_contra hgt
      rw [if_pos (by norm_num at hgt ⊢; linarith [hgt])] at hw
      exact absurd hw.choose_spec (by simp)
    · intro hle
      rw [if_neg (by norm_num; linarith [hle])]
      exact ⟨_, rfl⟩
  · intro w' hw'
    simp only [initCoordinator] at hw'
    by_cases hc : pyAbsQ (kw + sk + ex + ed + se - 1) > 0.001
    · rw [if_pos hc] at hw'
      exact absurd hw' (by simp)
    · rw [if_neg hc] at hw'
      obtain rfl := Except.ok.inj hw'
      exact ⟨rfl, rfl, rfl, rfl, rfl⟩
  · intro w f t e he
    rw [scoreResume_agent_results, collect, he]

/-- C4 witness: construction succeeds on the shipped weights, and a scoring
call with an out-of-tolerance weight assignment still stores that weight in a
failed agent's substitute result (no per-call validation). -/
theorem coordinator_weight_validation_witness :
    (∃ w', initCoordinator 0.20 0.25 0.20 0.10 0.25 = .ok w')
    ∧ ¬(∃ w', initCoordinator 0.30 0.25 0.20 0.10 0.25 = .ok w')
    ∧ ((scoreResume (fun _ => 0.3) (fun _ => .error "x")).agent_results .keyword_matching).weight
        = 0.3 := by
  refine ⟨?_, ?_, ?_⟩
  · exact (coordinator_weight_validation 0.20 0.25 0.20 0.10 0.25).1.mpr (by norm_num)
  · intro hok
    have := (coordinator_weight_validation 0.30 0.25 0.20 0.10 0.25).1.mp hok
    rw [abs_le] at this
    norm_num at this
  · exact (coordinator_weight_validation 0.20 0.25 0.20 0.10 0.25).2.2
      (fun _ => 0.3) (fun _ => .error "x") .keyword_matching "x" rfl

/-- C3 witness at a concrete environment, profile, job and outcome assignment
(all five tasks succeed with their agent's analyze result). -/
theorem scoring_bounds_witness :
    0 ≤ (scoreResume configWeights
          (fun t => .ok (analyzeOf
            ⟨fun _ => ∅, specSkillMappings, 2024, fun _ => none, fun _ => 0⟩ t
            ⟨"", "skills: python", []⟩
            ⟨"", "", "", [], ["python"]⟩))).total_score
    ∧ (scoreResume configWeights
          (fun t => .ok (analyzeOf
            ⟨fun _ => ∅, specSkillMappings, 2024, fun _ => none, fun _ => 0⟩ t
            ⟨"", "skills: python", []⟩
            ⟨"", "", "", [], ["python"]⟩))).total_score ≤ 1 := by
  exact (scoring_bounds ⟨fun _ => ∅, specSkillMappings, 2024, fun _ => none, fun _ => 0⟩
    ⟨"", "skills: python", []⟩ ⟨"", "", "", [], ["python"]⟩ _
    (fun t => Or.inl rfl)).2.1

/-- C1.  A task that raises is replaced in place by an AgentResult with score
0, confidence 0, an error message and the agent's configured weight; outcomes
of the other agents' tasks are untouched by the failure; and a breakdown is
returned for every outcome assignment — in particular, when every agent
failed, it is the all-zero breakdown. -/
theorem coordinator_failure_isolation
    (f : AgentType → Except String AgentResult) (t : AgentType) (e : String)
    (h : f t = .error e) :
    (scoreResume configWeights f).agent_results t =
      { agent_type := t, score := 0, percentage := 0, weight := configWeights t,
        evidence := [], confidence := 0, error := some ("Agent failed: " ++ e) }
    ∧ (∀ g : AgentType → Except String AgentResult,
        (∀ u, u ≠ t → g u = f u) →
        ∀ u, u ≠ t → (scoreResume configWeights g).agent_results u
          = (scoreResume configWeights f).agent_results u)
    ∧ ((∀ u, ∃ eu, f u = .error eu) →
        (scoreResume configWeights f).total_score = 0
        ∧ (scoreResume configWeights f).match_percentage = 0
        ∧ (scoreResume configWeights f).confidence = 0
        ∧ (scoreResume configWeights f).skills_match = ∅
        ∧ (scoreResume configWeights f).missing_skills = ∅
        ∧ ∀ u, ((scoreResume configWeights f).agent_results u).score = 0
            ∧ ((scoreResume configWeights f).agent_results u).confidence = 0) := by
  refine ⟨?_, ?_, ?_⟩
  · rw [scoreResume_agent_results, collect, h]
  · intro g hg u hu
    rw [scoreResume_agent_results, scoreResume_agent_results, collect, collect, hg u hu]
  · intro hall
    have herr : ∀ u, errFree (collect configWeights f u) = false := by
      intro u
      obtain ⟨eu, heu⟩ := hall u
      rw [collect, heu]
      rfl
    have hfilter : ((agentOrder.map (collect configWeights f)).filter errFree) = [] := by
      rw [List.filter_eq_nil_iff]
      intro r hr
      obtain ⟨u, _, rfl⟩ := List.mem_map.mp hr
      simp [herr u]
    have htot : (scoreResume configWeights f).total_score = 0 := by
      rw [scoreResume_total, hfilter]
      rfl
    refine ⟨htot, ?_, ?_, ?_, ?_, ?_⟩
    · rw [scoreResume_match_percentage, htot]
      norm_num
    · rw [scoreResume_confidence, hfilter]
      rfl
    · rw [scoreResume_skills_match]
      have := herr .skill_matching
      rw [errFree] at this
      simp [this]
    · rw [scoreResume_missing_skills]
      have := herr .skill_matching
      rw [errFree] at this
      simp [this]
    · intro u
      obtain ⟨eu, heu⟩ := hall u
      rw [scoreResume_agent_results, collect, heu]
      exact ⟨rfl, rfl⟩

/-- C1 witness: a run in which every task failed. -/
theorem coordinator_failure_isolation_witness :
    (scoreResume configWeights (fun _ => .error "boom")).agent_results .skill_matching =
      { agent_type := .skill_matching, score := 0, percentage := 0, weight := 0.25,
        evidence := [], confidence := 0, error := some "Agent failed: boom" }
    ∧ (scoreResume configWeights (fun _ => .error "boom")).total_score = 0
    ∧ (scoreResume configWeights (fun _ => .error "boom")).confidence = 0 := by
  have h := coordinator_failure_isolation (fun _ => .error "boom") .skill_matching "boom" rfl
  have hz := h.2.2 (fun u => ⟨"boom", rfl⟩)
  exact ⟨h.1, hz.1, hz.2.2.1⟩

/-- The error-free collected results of a run in which exactly the task of
agent t failed and every other agent's outcome is an error-free success are
the other agents' results, in coordinator order. -/
theorem filter_single_fail (f g : AgentType → Except String AgentResult) (t : AgentType)
    (e : String) (hgt : g t = .error e) (hg : ∀ u, u ≠ t → g u = f u)
    (hok : ∀ u, u ≠ t → ∃ r, f u = .ok r ∧ r.error = none) :
    ∀ l : List AgentType,
      ((l.map (collect configWeights g)).filter errFree)
        = (l.filter (fun u => u != t)).map (collect configWeights f) := by
  intro l
  induction l with
  | nil => rfl
  | cons u rest ih =>
    by_cases hu : u = t
    · subst hu
      have h1 : errFree (collect configWeights g u) = false := by
        rw [collect, hgt]
        rfl
      simp [List.filter_cons, h1, ih]
    · obtain ⟨r, hr, hre⟩ := hok u hu
      have h1 : collect configWeights g u = collect configWeights f u := by
        rw [collect, collect, hg u hu]
      have h2 : errFree (collect configWeights f u) = true := by
        rw [collect, hr, errFree, hre]
        rfl
      simp [List.filter_cons, h1, h2, hu, ih]

/-- C2.  The breakdown's total_score is the sum of score×weight over exactly
the error-free agent results, and its confidence is the weighted confidence
sum over that subset divided by the subset's weight sum (0 when the subset is
empty); consequently, failing one agent while the other four succeed leaves
the other four results unchanged and makes the total the sum over those four,
with confidence renormalised over their weights.  The hypothesis ties each
successful outcome's weight to the configured weight, as every result built
by the agents' _create_result carries its agent's configured weight. -/
theorem coordinator_aggregation_formula
    (f : AgentType → Except String AgentResult)
    (_hw : ∀ t r, f t = .ok r → r.weight = configWeights t) :
    ((scoreResume configWeights f).total_score
      = (((agentOrder.map (collect configWeights f)).filter errFree).map
          (fun r => r.score * r.weight)).sum)
    ∧ ((scoreResume configWeights f).confidence
      = (if ((agentOrder.map (collect configWeights f)).filter errFree).isEmpty then 0
         else (((agentOrder.map (collect configWeights f)).filter errFree).map
                 (fun r => r.confidence * r.weight)).sum
              / (((agentOrder.map (collect configWeights f)).filter errFree).map
                  (fun r => r.weight)).sum))
    ∧ (∀ (g : AgentType → Except String AgentResult) (t : AgentType) (e : String),
        g t = .error e →
        (∀ u, u ≠ t → g u = f u) →
        (∀ u, u ≠ t → ∃ r, f u = .ok r ∧ r.error = none) →
        (∀ u, u ≠ t → (scoreResume configWeights g).agent_results u
            = (scoreResume configWeights f).agent_results u)
        ∧ (scoreResume configWeights g).total_score
            = ((agentOrder.filter (fun u => u != t)).map
                (fun u => (collect configWeights f u).score * (collect configWeights f u).weight)).sum
        ∧ (scoreResume configWeights g).confidence
            = ((agentOrder.filter (fun u => u != t)).map
                (fun u => (collect configWeights f u).confidence * (collect configWeights f u).weight)).sum
              / ((agentOrder.filter (fun u => u != t)).map
                  (fun u => (collect configWeights f u).weight)).sum) := by
  refine ⟨scoreResume_total configWeights f, scoreResume_confidence configWeights f, ?_⟩
  intro g t e hgt hg hok
  have hfil := filter_single_fail f g t e hgt hg hok agentOrder
  have hne : ((agentOrder.filter (fun u => u != t)).map (collect configWeights f)) ≠ [] := by
    rw [ne_eq, List.map_eq_nil_iff]
    cases t <;> simp [agentOrder]
  refine ⟨?_, ?_, ?_⟩
  · intro u hu
    rw [scoreResume_agent_results, scoreResume_agent_results, collect, collect, hg u hu]
  · rw [scoreResume_total, hfil, List.map_map]
    rfl
  · rw [scoreResume_confidence, hfil, if_neg (by simp [List.isEmpty_iff, hne]),
      List.map_map, List.map_map]
    rfl

/-- A fixed error-free success result used to witness the aggregation
formulas. -/
def wres (t : AgentType) : AgentResult :=
  { agent_type := t, score := 1/2, percentage := 50, weight := configWeights t,
    evidence := [], confidence := 1, error := none }

/-- C2 witness: five successful half-score results aggregate to 1/2; failing
the semantic agent drops its 0.25 weight share, giving 3/8, and confidence
renormalises to 1 over the remaining four. -/
theorem coordinator_aggregation_formula_witness :
    (scoreResume configWeights (fun t => .ok (wres t))).total_score = 1/2
    ∧ (scoreResume configWeights
        (fun u => if u = .semantic_similarity then .error "x" else .ok (wres u))).total_score
        = 3/8
    ∧ (scoreResume configWeights
        (fun u => if u = .semantic_similarity then .error "x" else .ok (wres u))).confidence
        = 1 := by
  have hw : ∀ (t : AgentType) (r : AgentResult),
      (Except.ok (wres t) : Except String AgentResult) = .ok r → r.weight = configWeights t := by
    intro t r hr
    cases hr
    rfl
  have h := coordinator_aggregation_formula (fun t => .ok (wres t)) hw
  have hsingle := h.2.2
    (fun u => if u = .semantic_similarity then .error "x" else .ok (wres u))
    .semantic_similarity "x" (by simp)
    (fun u hu => by simp [hu])
    (fun u hu => ⟨wres u, rfl, rfl⟩)
  refine ⟨?_, ?_, ?_⟩
  · rw [h.1]
    with_unfolding_all decide
  · rw [hsingle.2.1]
    with_unfolding_all decide
  · rw [hsingle.2.2]
    with_unfolding_all decide

/-- A zero-score, zero-confidence result of _create_result projects to zeros. -/
theorem createResult_zero (t : AgentType) (w : ℚ) (e : Evidence) (err : Option String) :
    (createResult t w 0 e 0 err).score = 0
    ∧ (createResult t w 0 e 0 err).confidence = 0
    ∧ (createResult t w 0 e 0 err).error = err := by
  refine ⟨?_, rfl, rfl⟩
  show pyMaxQ 0 (pyMinQ 1 0) = 0
  norm_num [pyMaxQ, pyMinQ]

/-! C5: the skill agent's score.  The claim's subset condition does not force
score 1 when the normalized job list contains a canonical skill twice: the
source divides the matched set's cardinality by len(job_normalized), a list
length counting duplicates. -/

def cexResume5 : Resume := { title := "", text_content := "skills: python", skills := [] }

def cexJob5 : Job :=
  { title := "", company := "", description := "", requirements := [],
    skills := ["python", "python"] }

/-- C5 counterexample: the job's normalized skill list is non-empty and every
normalized job skill is among the candidate's normalized skills, yet the
score is 1/2, not 1, because the duplicated canonical skill inflates the
denominator. -/
theorem skill_subset_score_cex :
    ((cexJob5.skills.map pyLower).filterMap (normalizeSkill specSkillMappings) ≠ []
      ∧ ∀ s ∈ (cexJob5.skills.map pyLower).filterMap (normalizeSkill specSkillMappings),
          s ∈ (extractSkills specSkillMappings (extractTextContent cexResume5)).filterMap
                (normalizeSkill specSkillMappings))
    ∧ (skillAnalyze specSkillMappings 0.25 cexResume5 cexJob5).score = 1/2
    ∧ (skillAnalyze specSkillMappings 0.25 cexResume5 cexJob5).score ≠ 1 := by
  with_unfolding_all decide

/-- C5 amended.  With no declared job skills the agent returns 0 with the
no-skills error; with declared skills none of which normalize it returns 0
with the after-normalization error; otherwise its score is |matched set| over
the length (duplicates counted) of the normalized job list, which equals 1
whenever the normalized job list is duplicate-free, non-empty and contained
in the candidate's normalized skills. -/
theorem skill_score_formula (mappings : List (String × String)) (resume : Resume) (job : Job) :
    (job.skills.map pyLower = [] →
      (skillAnalyze mappings 0.25 resume job).score = 0
      ∧ (skillAnalyze mappings 0.25 resume job).confidence = 0
      ∧ (skillAnalyze mappings 0.25 resume job).error
          = some "No skills specified in job description")
    ∧ (job.skills.map pyLower ≠ [] →
        (job.skills.map pyLower).filterMap (normalizeSkill mappings) = [] →
        (skillAnalyze mappings 0.25 resume job).score = 0
        ∧ (skillAnalyze mappings 0.25 resume job).confidence = 0
        ∧ (skillAnalyze mappings 0.25 resume job).error
            = some "No valid skills found in job description after normalization")
    ∧ ((job.skills.map pyLower).filterMap (normalizeSkill mappings) ≠ [] →
        ((skillAnalyze mappings 0.25 resume job).score
          = pyMinQ 1
              (((((extractSkills mappings (extractTextContent resume)).filterMap
                    (normalizeSkill mappings)).toFinset
                  ∩ ((job.skills.map pyLower).filterMap (normalizeSkill mappings)).toFinset).card : ℚ)
                / (((job.skills.map pyLower).filterMap (normalizeSkill mappings)).length : ℚ)))
        ∧ (((job.skills.map pyLower).filterMap (normalizeSkill mappings)).Nodup →
            (∀ s ∈ (job.skills.map pyLower).filterMap (normalizeSkill mappings),
              s ∈ (extractSkills mappings (extractTextContent resume)).filterMap
                    (normalizeSkill mappings)) →
            (skillAnalyze mappings 0.25 resume job).score = 1)) := by
  refine ⟨?_, ?_, ?_⟩
  · intro hempty
    unfold skillAnalyze
    dsimp only
    rw [if_pos hempty]
    exact createResult_zero _ _ _ _
  · intro hne hnorm
    unfold skillAnalyze
    dsimp only
    rw [if_neg hne, if_pos hnorm]
    exact createResult_zero _ _ _ _
  · intro hjn
    have hne : job.skills.map pyLower ≠ [] := by
      intro hcontra
      exact hjn (by rw [hcontra]; rfl)
    have hscore : (skillAnalyze mappings 0.25 resume job).score
        = pyMaxQ 0 (pyMinQ 1
            (pyMinQ 1
              (((((extractSkills mappings (extractTextContent resume)).filterMap
                    (normalizeSkill mappings)).toFinset
                  ∩ ((job.skills.map pyLower).filterMap (normalizeSkill mappings)).toFinset).card : ℚ)
                / (((job.skills.map pyLower).filterMap (normalizeSkill mappings)).length : ℚ)))) := by
      unfold skillAnalyze
      dsimp only
      rw [if_neg hne, if_neg hjn]
      rfl
    have hfrac01 : ∀ x : ℚ, 0 ≤ x → pyMaxQ 0 (pyMinQ 1 (pyMinQ 1 x)) = pyMinQ 1 x := by
      intro x hx
      unfold pyMaxQ pyMinQ
      split_ifs <;> linarith
    have hnn : (0:ℚ) ≤
        (((((extractSkills mappings (extractTextContent resume)).filterMap
              (normalizeSkill mappings)).toFinset
            ∩ ((job.skills.map pyLower).filterMap (normalizeSkill mappings)).toFinset).card : ℚ)
          / (((job.skills.map pyLower).filterMap (normalizeSkill mappings)).length : ℚ)) :=
      div_nonneg (by positivity) (by positivity)
    constructor
    · rw [hscore, hfrac01 _ hnn]
    · intro hnd hsub
      rw [hscore, hfrac01 _ hnn]
      have hsubset : ((job.skills.map pyLower).filterMap (normalizeSkill mappings)).toFinset
          ⊆ ((extractSkills mappings (extractTextContent resume)).filterMap
              (normalizeSkill mappings)).toFinset := by
        intro s hs
        exact List.mem_toFinset.mpr (hsub s (List.mem_toFinset.mp hs))
      rw [Finset.inter_eq_right.mpr hsubset, List.toFinset_card_of_nodup hnd]
      have hlen : (0:ℚ) <
          (((job.skills.map pyLower).filterMap (normalizeSkill mappings)).length : ℚ) := by
        have : ((job.skills.map pyLower).filterMap (normalizeSkill mappings)).length ≠ 0 :=
          fun hz => hjn (List.length_eq_zero.mp hz)
        positivity
      rw [div_self (ne_of_gt hlen)]
      norm_num [pyMinQ]

/-- C5 witness for the amended formula: a duplicate-free job skill list fully
covered by the candidate's extracted skills scores 1. -/
theorem skill_score_formula_witness :
    (skillAnalyze specSkillMappings 0.25 cexResume5
      { title := "", company := "", description := "", requirements := [],
        skills := ["python"] }).score = 1 := by
  exact ((skill_score_formula specSkillMappings cexResume5
    { title := "", company := "", description := "", requirements := [],
      skills := ["python"] }).2.2
    (by with_unfolding_all decide)).2
    (by with_unfolding_all decide) (by with_unfolding_all decide)

/-! C6: Scenario A. -/

def cexResume6 : Resume := { title := "", text_content := "", skills := ["Python", "React"] }

def cexJob6 : Job :=
  { title := "", company := "", description := "", requirements := [],
    skills := ["python", "aws"] }

def amResume6 : Resume := { title := "", text_content := "skills: python, react", skills := [] }

/-- C6 counterexample: for a candidate profile whose declared skill list is
["Python", "React"] but whose resume text is empty, the skill agent scores 0
with no matched skills — the declared list is never read; skills are
harvested from the resume text only. -/
theorem scenarioA_declared_skills_cex :
    cexResume6.skills = ["Python", "React"]
    ∧ cexJob6.skills = ["python", "aws"]
    ∧ (skillAnalyze specSkillMappings 0.25 cexResume6 cexJob6).score = 0
    ∧ getStrSet (skillAnalyze specSkillMappings 0.25 cexResume6 cexJob6).evidence
        "matched_skills" = ∅
    ∧ (skillAnalyze specSkillMappings 0.25 cexResume6 cexJob6).score ≠ 1/2 := by
  with_unfolding_all decide

/-- C6 amended: when the candidate's skills are declared in the resume text
("skills: python, react"), the agent extracts and normalizes them, and
Scenario A holds: matched {python}, missing {aws}, score 0.5. -/
theorem scenarioA_text_skills :
    (skillAnalyze specSkillMappings 0.25 amResume6 cexJob6).score = 1/2
    ∧ getStrSet (skillAnalyze specSkillMappings 0.25 amResume6 cexJob6).evidence
        "matched_skills" = {"python"}
    ∧ getStrSet (skillAnalyze specSkillMappings 0.25 amResume6 cexJob6).evidence
        "missing_skills" = {"aws"} := by
  with_unfolding_all decide

/-- C7: on a job whose requirements mention only the generic word "degree",
the education extraction stores group name "bachelors" with rank 0 — not the
bachelor rank 2 — because the degree_levels hierarchy keys "bachelor", not
"bachelors", and the .get default 0 silently fires; consequently the level
score of any candidate against such a job is 1.0, where the documented
hierarchy (bachelor = 2) would give an associate-level candidate 1/2.  The
source's own fallback branch, which maps a bare "degree" mention to
("bachelor", 2), is unreachable because the "bachelors" pattern group already
contains r'degree'. -/
theorem education_generic_degree_bug :
    (extractEducationRequirements ["degree required"]).degree_level = "bachelors"
    ∧ (extractEducationRequirements ["degree required"]).level = 0
    ∧ List.lookup "bachelors" degreeLevels = none
    ∧ List.lookup "bachelor" degreeLevels = some 2
    ∧ educationLevelScore 1 (extractEducationRequirements ["degree required"]).level = 1
    ∧ educationLevelScore 1 2 = 1/2 := by
  with_unfolding_all decide

/-! C8: the experience agent's default target seniority. -/

/-- C8 counterexample: a requirement list with no seniority keyword and no
years figure is assigned target level "junior", not "mid". -/
theorem experience_default_level_cex :
    findYearsList jobYearsPats (pyLower (pyJoin " " ["must communicate well"])) = []
    ∧ findSeniority (pyLower (pyJoin " " ["must communicate well"])) = none
    ∧ (extractExperienceRequirements ["must communicate well"]).level = "junior"
    ∧ (extractExperienceRequirements ["must communicate well"]).level ≠ "mid" := by
  with_unfolding_all decide

/-- C8 amended: whenever the joined requirement text yields no years figure
and matches no seniority keyword, the extracted requirement is 0 years at
level "junior" (the source's default assumption). -/
theorem experience_default_level (requirements : List String)
    (h1 : findYearsList jobYearsPats (pyLower (pyJoin " " requirements)) = [])
    (h2 : findSeniority (pyLower (pyJoin " " requirements)) = none) :
    (extractExperienceRequirements requirements).years = 0
    ∧ (extractExperienceRequirements requirements).level = "junior" := by
  unfold extractExperienceRequirements
  dsimp only
  rw [h1, h2]
  norm_num [levelFromYears]

/-- C8 witness. -/
theorem experience_default_level_witness :
    findYearsList jobYearsPats (pyLower (pyJoin " " ["must communicate well"])) = []
    ∧ (extractExperienceRequirements ["must communicate well"]).level = "junior" :=
  ⟨by with_unfolding_all decide,
   (experience_default_level ["must communicate well"]
     (by with_unfolding_all decide) (by with_unfolding_all decide)).2⟩

/-- C9.  When either side's embedding is unavailable — the collaborator
returned none (or raised), or the side's stripped text is shorter than 10
characters — the semantic agent returns score 0, confidence 0 and the
explicit embeddings error; and the semantic agent's outcome never influences
another agent's entry in the breakdown. -/
theorem semantic_failure_isolation (embedFn : String → Option (List ℚ)) (sqrtFn : ℚ → ℚ)
    (resume : Resume) (job : Job)
    (h : generateEmbedding embedFn (extractTextContent resume) = none
       ∨ generateEmbedding embedFn (extractJobContent job) = none) :
    ((semanticAnalyze embedFn sqrtFn 0.25 resume job).score = 0
     ∧ (semanticAnalyze embedFn sqrtFn 0.25 resume job).confidence = 0
     ∧ (semanticAnalyze embedFn sqrtFn 0.25 resume job).error
         = some "Failed to generate embeddings")
    ∧ (∀ text, sLen (pyStrip text) < 10 → generateEmbedding embedFn text = none)
    ∧ (∀ text, embedFn text = none → generateEmbedding embedFn text = none)
    ∧ (∀ f g : AgentType → Except String AgentResult,
        (∀ u, u ≠ AgentType.semantic_similarity → g u = f u) →
        ∀ u, u ≠ AgentType.semantic_similarity →
          (scoreResume configWeights g).agent_results u
            = (scoreResume configWeights f).agent_results u) := by
  refine ⟨?_, ?_, ?_, ?_⟩
  · unfold semanticAnalyze
    dsimp only
    rcases h with h | h
    · rw [h]
      rcases generateEmbedding embedFn (extractJobContent job) with _ | e2 <;>
        exact createResult_zero _ _ _ _
    · rw [h]
      rcases generateEmbedding embedFn (extractTextContent resume) with _ | e1 <;>
        exact createResult_zero _ _ _ _
  · intro text ht
    unfold generateEmbedding
    rw [if_pos (Or.inr ht)]
  · intro text ht
    unfold generateEmbedding
    split_ifs
    · rfl
    · exact ht
  · intro f g hg u hu
    rw [scoreResume_agent_results, scoreResume_agent_results, collect, collect, hg u hu]

/-- C9 witness: a failing collaborator (and an empty resume text, under 10
characters) downgrades exactly the semantic agent's result. -/
theorem semantic_failure_isolation_witness :
    (semanticAnalyze (fun _ => none) (fun _ => 0) 0.25 ⟨"", "", []⟩
      ⟨"j", "c", "d", [], []⟩).score = 0
    ∧ (semanticAnalyze (fun _ => none) (fun _ => 0) 0.25 ⟨"", "", []⟩
        ⟨"j", "c", "d", [], []⟩).error = some "Failed to generate embeddings" := by
  have h := semantic_failure_isolation (fun _ => none) (fun _ => 0) ⟨"", "", []⟩
    ⟨"j", "c", "d", [], []⟩ (Or.inl (by with_unfolding_all decide))
  exact ⟨h.1.1, h.1.2.2⟩

/-- C10.  A failed taxonomy load leaves the agent constructed over an empty
mapping table; against any job with a non-empty declared skill list its
analyze then returns score 0, confidence 0 and the after-normalization error
annotation, and the coordinator's breakdown carries empty matched and missing
skill lists. -/
theorem taxonomy_load_failure_graceful (e : String) (resume : Resume) (job : Job)
    (hj : job.skills ≠ []) :
    buildSkillMappings (loadedTaxonomy (.error e)) = []
    ∧ (skillAnalyze (buildSkillMappings (loadedTaxonomy (.error e))) 0.25 resume job).score = 0
    ∧ (skillAnalyze (buildSkillMappings (loadedTaxonomy (.error e))) 0.25 resume job).confidence = 0
    ∧ (skillAnalyze (buildSkillMappings (loadedTaxonomy (.error e))) 0.25 resume job).error
        = some "No valid skills found in job description after normalization"
    ∧ (∀ f : AgentType → Except String AgentResult,
        f .skill_matching
          = .ok (skillAnalyze (buildSkillMappings (loadedTaxonomy (.error e))) 0.25 resume job) →
        (scoreResume configWeights f).skills_match = ∅
        ∧ (scoreResume configWeights f).missing_skills = ∅) := by
  have hmap : buildSkillMappings (loadedTaxonomy (.error e)) = [] := rfl
  have hne : job.skills.map pyLower ≠ [] := by
    rw [ne_eq, List.map_eq_nil_iff]
    exact hj
  have hjn : (job.skills.map pyLower).filterMap (normalizeSkill []) = [] :=
    List.filterMap_eq_nil_iff.mpr (fun a _ => rfl)
  have hres : skillAnalyze (buildSkillMappings (loadedTaxonomy (.error e))) 0.25 resume job
      = skillAnalyze [] 0.25 resume job := by rw [hmap]
  have hzero := createResult_zero AgentType.skill_matching 0.25
    [("resume_skills", EvVal.strList (extractSkills [] (extractTextContent resume))),
     ("job_skills", EvVal.strList (job.skills.map pyLower)),
     ("matched_skills", EvVal.strSet ∅), ("missing_skills", EvVal.strSet ∅),
     ("total_job_skills", EvVal.int 0),
     ("total_resume_skills", EvVal.int (extractSkills [] (extractTextContent resume)).length)]
    (some "No valid skills found in job description after normalization")
  have hform : skillAnalyze [] 0.25 resume job
      = createResult AgentType.skill_matching 0.25 0
          [("resume_skills", EvVal.strList (extractSkills [] (extractTextContent resume))),
           ("job_skills", EvVal.strList (job.skills.map pyLower)),
           ("matched_skills", EvVal.strSet ∅), ("missing_skills", EvVal.strSet ∅),
           ("total_job_skills", EvVal.int 0),
           ("total_resume_skills", EvVal.int (extractSkills [] (extractTextContent resume)).length)]
          0 (some "No valid skills found in job description after normalization") := by
    unfold skillAnalyze
    dsimp only
    rw [if_neg hne, if_pos hjn]
  refine ⟨hmap, ?_, ?_, ?_, ?_⟩
  · rw [hres, hform]
    exact hzero.1
  · rw [hres, hform]
    exact hzero.2.1
  · rw [hres, hform]
    exact hzero.2.2
  · intro f hf
    have herr : (collect configWeights f .skill_matching).error.isNone = false := by
      rw [collect, hf, hres, hform]
      rfl
    constructor
    · rw [scoreResume_skills_match, herr]
      rfl
    · rw [scoreResume_missing_skills, herr]
      rfl

/-- C10 witness. -/
theorem taxonomy_load_failure_graceful_witness :
    (skillAnalyze (buildSkillMappings (loadedTaxonomy (.error "file not found"))) 0.25
      ⟨"", "", []⟩ ⟨"", "", "", [], ["python"]⟩).error
      = some "No valid skills found in job description after normalization"
    ∧ (skillAnalyze (buildSkillMappings (loadedTaxonomy (.error "file not found"))) 0.25
        ⟨"", "", []⟩ ⟨"", "", "", [], ["python"]⟩).score = 0 := by
  have h := taxonomy_load_failure_graceful "file not found" ⟨"", "", []⟩
    ⟨"", "", "", [], ["python"]⟩ (by decide)
  exact ⟨h.2.2.2.1, h.2.1⟩

end ATS
